import Mathlib

/-!
Formal model of the lineup-prediction engine of the football-lineup-bot
repository, together with theorems settling the specification claims.

The Python sources embedded here are:
  backend/app/services/lineup_predictor.py            (class LineupPredictor)
  backend/app/services/lineup_predictor_optimized.py  (class OptimizedLineupPredictor)
  backend/app/services/injury_tracker.py              (class InjuryTracker)
  backend/app/services/news_analyzer.py               (class NewsAnalyzer)
  backend/app/services/news_analyzer_optimized.py     (class OptimizedNewsAnalyzer)

Modelling conventions:
  - Python floats are modelled as rationals; all the constants in the source
    are decimal literals, so the arithmetic content is preserved exactly.
  - Python dicts used as string-keyed maps are modelled as association lists;
    `dict.get(k, d)` is last-binding lookup with default `d` (Python
    semantics: later writes win), written `dictGetD`.
  - Fallible provider calls (HTTP fetches) are modelled as `Except Unit`
    values supplied by an environment record; a `try/except` block that
    swallows the error and substitutes a default is a `match` on that value.
  - Leading underscores of Python method names are dropped.
-/

namespace FootballLineup

/-- Python `needle in haystack` on lists of characters:
`needle` occurs contiguously inside `haystack`. -/
def charsContain (haystack needle : List Char) : Bool :=
  match haystack with
  | [] => needle.isEmpty
  | _ :: rest => needle.isPrefixOf haystack || charsContain rest needle

/-- Python `needle in haystack` for strings (substring containment). -/
def strContains (haystack needle : String) : Bool :=
  charsContain haystack.toList needle.toList

/-- Python `str.lower()` (character-wise lowering; the repository only
handles ASCII names and keywords). -/
def strToLower (s : String) : String :=
  String.mk (s.toList.map Char.toLower)

/-- Python `dict.get(key, default)` for a dict built by successive writes
from an association list: the LAST binding of the key wins. -/
def dictGetD (l : List (String × ℚ)) (key : String) (dflt : ℚ) : ℚ :=
  ((l.reverse).lookup key).getD dflt

/-- Python key-membership test `key in dict` for an association list. -/
def dictHasKey (l : List (String × ℚ)) (key : String) : Bool :=
  (l.lookup key).isSome

/-- A squad member as returned by the data provider:
`{"name": ..., "position": ..., "age": ...}`.  The `age` key may be absent
(the scoring code reads it with `player.get("age", 25)`). -/
structure Player where
  name : String
  position : String
  age : Option Int := none
deriving DecidableEq, Repr

/-- An injury record as built by `InjuryTracker._fetch_api_football_injuries`.
Only the fields the core logic reads are modelled; `severity` is optional
because the predictor reads it with `injury.get("severity", "minor")`. -/
structure Injury where
  player_name : String
  severity : Option String := none
  status : String := "injured"
  description : String := ""
deriving DecidableEq, Repr

/-- One recent-lineup record `{"formation": ..., "players": [...]}`.
`formation` is optional; `players` holds the stringified player entries that
`_calculate_appearance_rate` scans with a substring test. -/
structure Lineup where
  formation : Option String := none
  players : List String := []
deriving DecidableEq, Repr

/-- The `insights` dict produced by the optimized news analyzer: each of the
three player categories maps a player name to a confidence value, and
`formation_hints` is the (optional) formation string. -/
structure Insights where
  likely_starters : List (String × ℚ) := []
  doubtful : List (String × ℚ) := []
  ruled_out : List (String × ℚ) := []
  formation_hints : Option String := none
deriving DecidableEq, Repr

/-- The news-analysis result dict consumed by the predictors:
`{"insights": ..., "confidence": ..., "last_update": ...}`.
`last_update` is modelled by the elapsed age in hours at the moment the
confidence breakdown reads it (the source computes
`(datetime.now() - news_insights["last_update"]).total_seconds() / 3600`);
`none` models an absent or falsy `last_update` key. -/
structure NewsData where
  insights : Insights := {}
  confidence : ℚ := 0
  last_update : Option ℚ := none
deriving DecidableEq, Repr

/-- Python truthiness of an optional string value: `None` and `""` are falsy.
Used for `if news_insights.get(...).get("formation_hints"):` and
`if lineup.get("formation"):`. -/
def truthyStr : Option String → Option String
  | none => none
  | some s => if s = "" then none else some s

/-- `int(s)` on a decimal-digit string; `none` models the `ValueError`
raised on a non-numeric part (only digit strings reach the parser from
well-formed formation strings). -/
def strToNat? (s : String) : Option Nat :=
  if s ≠ "" ∧ s.toList.all Char.isDigit then some s.toNat! else none

/-- `LineupPredictor._select_starting_xi` lines 165-174: split the formation
on "-"; three parts are parsed with `int` (a parse failure raises, modelled
as `none`), any other shape falls back to (4, 3, 3). -/
def parseFormationSimple (formation : String) : Option (Nat × Nat × Nat) :=
  match formation.splitOn "-" with
  | [a, b, c] => do pure (← strToNat? a, ← strToNat? b, ← strToNat? c)
  | _ => some (4, 3, 3)

/-- `collections.Counter(l).most_common(1)[0][0]`: the value with maximal
multiplicity in `l`, ties broken towards the value first inserted into the
counter (i.e. first occurring in `l`); `none` on the empty list.
`firstOccKeys` is the counter key order. -/
def firstOccKeys (l : List String) : List String :=
  l.foldl (fun acc x => if x ∈ acc then acc else acc ++ [x]) []

/-- See `firstOccKeys`: the head of `Counter(l).most_common(1)`. -/
def mostCommon (l : List String) : Option String :=
  (firstOccKeys l).foldl
    (fun best k =>
      match best with
      | none => some k
      | some b => if l.count b < l.count k then some k else best)
    none

/-- The formation strings of the recent lineups, in order, keeping only
truthy values (`lineup.get("formation")` guard in both predictors). -/
def lineupFormations (recent_lineups : List Lineup) : List String :=
  recent_lineups.filterMap fun l => truthyStr l.formation

/-- The truthy formation hint of the news insights:
`news_insights.get("insights", {}).get("formation_hints")` under Python
truthiness, with `none` for an absent or empty news dict. -/
def newsFormationHint (news_insights : Option NewsData) : Option String :=
  match news_insights with
  | none => none
  | some nd => truthyStr nd.insights.formation_hints

/-- `LineupPredictor._predict_formation`: return the news formation hint if
truthy; else the most common formation of the recent lineups (plain
`Counter`); else the default "4-3-3". -/
def predict_formation (recent_lineups : List Lineup)
    (news_insights : Option NewsData) : String :=
  match newsFormationHint news_insights with
  | some s => s
  | none =>
    match mostCommon (lineupFormations recent_lineups) with
    | some f => f
    | none => "4-3-3"

/-- `LineupPredictor._select_starting_xi` for an already-parsed formation
(defenders, midfielders, forwards): bucket the available players by
position, take the first goalkeeper and the leading slice of each outfield
bucket, then backfill to 11 from the remaining available players of any
position, and finally truncate to 11. -/
def select_starting_xi (available_players : List Player)
    (defenders midfielders forwards : Nat) : List Player :=
  let goalkeepers := available_players.filter (fun p => p.position = "Goalkeeper")
  let defenders_list := available_players.filter (fun p => p.position = "Defender")
  let midfielders_list := available_players.filter (fun p => p.position = "Midfielder")
  let forwards_list := available_players.filter (fun p => p.position = "Attacker")
  let starting_xi := goalkeepers.take 1 ++ defenders_list.take defenders
    ++ midfielders_list.take midfielders ++ forwards_list.take forwards
  let starting_xi :=
    if starting_xi.length < 11 then
      starting_xi
        ++ (available_players.filter (fun p => ¬ p ∈ starting_xi)).take
          (11 - starting_xi.length)
    else starting_xi
  starting_xi.take 11

/-- `LineupPredictor._select_starting_xi` on the formation string (parse
failure, i.e. a raised `ValueError`, is `none`). -/
def select_starting_xi_of (available_players : List Player)
    (formation : String) : Option (List Player) :=
  (parseFormationSimple formation).map fun (d, m, f) =>
    select_starting_xi available_players d m f

/-- `LineupPredictor._select_substitutes`: the available players not in the
starting XI, first seven. -/
def select_substitutes (available_players starting_xi : List Player) :
    List Player :=
  (available_players.filter (fun p => ¬ p ∈ starting_xi)).take 7

/-- `LineupPredictor._calculate_confidence`: base 0.5, +0.2 for a squad of
at least 20, +0.1 for any injury data, + news confidence times 0.1, +0.1
for at least 3 recent lineups, capped at 0.95. -/
def calculate_confidence (squad_size injuries_count : Nat)
    (news_confidence : ℚ) (recent_lineups_count : Nat) : ℚ :=
  let confidence : ℚ := 1/2
  let confidence := if 20 ≤ squad_size then confidence + 2/10 else confidence
  let confidence := if 0 < injuries_count then confidence + 1/10 else confidence
  let confidence := confidence + news_confidence * (1/10)
  let confidence := if 3 ≤ recent_lineups_count then confidence + 1/10 else confidence
  min confidence (95/100)

/-- `OptimizedLineupPredictor.position_importance` with the
`.get(position, 0.5)` default used in `_calculate_player_scores`. -/
def position_importance (position : String) : ℚ :=
  if position = "Goalkeeper" then 1
  else if position = "Defender" then 85/100
  else if position = "Midfielder" then 9/10
  else if position = "Attacker" then 95/100
  else 1/2

/-- `OptimizedLineupPredictor._calculate_appearance_rate`: the fraction of
recent lineups whose stringified player entries contain the player name as
a substring; 0.5 when there is no history. -/
def calculate_appearance_rate (player_name : String)
    (recent_lineups : List Lineup) : ℚ :=
  if recent_lineups = [] then 1/2
  else
    (recent_lineups.countP
        (fun lu => lu.players.any (fun s => strContains s player_name)) : ℚ)
      / (recent_lineups.length : ℚ)

/-- `OptimizedLineupPredictor._calculate_injury_impact`: find the first
injury record whose player name matches case-insensitively; map its
severity (defaulted to "minor" when the key is absent) through
`{"out": 0.0, "major": 0.2, "minor": 0.7}` with fallback 0.5; return 1.0
when no record matches. -/
def calculate_injury_impact (player_name : String)
    (injuries : List Injury) : ℚ :=
  match injuries.find? (fun i => strToLower i.player_name = strToLower player_name) with
  | some injury =>
    let severity := injury.severity.getD "minor"
    if severity = "out" then 0
    else if severity = "major" then 2/10
    else if severity = "minor" then 7/10
    else 1/2
  | none => 1

/-- `OptimizedLineupPredictor._calculate_news_score`: 0.0 when the player is
ruled out, own confidence when a likely starter, `0.5 - confidence * 0.3`
when doubtful, 0.5 when unmentioned (or when there is no news dict). -/
def calculate_news_score (player_name : String)
    (news_insights : Option NewsData) : ℚ :=
  match news_insights with
  | none => 1/2
  | some nd =>
    let insights := nd.insights
    if dictHasKey insights.ruled_out player_name then 0
    else if dictHasKey insights.likely_starters player_name then
      dictGetD insights.likely_starters player_name (8/10)
    else if dictHasKey insights.doubtful player_name then
      1/2 - dictGetD insights.doubtful player_name 0 * (3/10)
    else 1/2

/-- The loop body of `OptimizedLineupPredictor._calculate_player_scores`:
the weighted sum (weights 0.15, 0.25, 0.20, 0.20, 0.15, 0.05) of position
importance, appearance rate, form, injury impact, news score and age
factor, clamped to [0, 1]. -/
def playerScoreOf (player : Player) (recent_lineups : List Lineup)
    (injuries : List Injury) (news_insights : Option NewsData)
    (player_form : List (String × ℚ)) : ℚ :=
  let base_score := position_importance player.position
  let appearance_rate := calculate_appearance_rate player.name recent_lineups
  let form_score := dictGetD player_form player.name (1/2)
  let injury_score := calculate_injury_impact player.name injuries
  let news_score := calculate_news_score player.name news_insights
  let age := player.age.getD 25
  let age_factor : ℚ := if 23 ≤ age ∧ age ≤ 32 then 1 else 9/10
  let final_score :=
    (15/100) * base_score + (25/100) * appearance_rate + (20/100) * form_score
      + (20/100) * injury_score + (15/100) * news_score + (5/100) * age_factor
  min (max final_score 0) 1

/-- `OptimizedLineupPredictor._calculate_player_scores`: the scores dict,
one binding per squad member in squad order. -/
def calculate_player_scores (squad : List Player)
    (recent_lineups : List Lineup) (injuries : List Injury)
    (news_insights : Option NewsData) (player_form : List (String × ℚ)) :
    List (String × ℚ) :=
  squad.map fun p =>
    (p.name, playerScoreOf p recent_lineups injuries news_insights player_form)

/-- Recursion underlying the recency weighting of
`OptimizedLineupPredictor._predict_formation_advanced` lines 317-321: the
i-th element of the REVERSED formation list (i.e. the i-th newest) is
repeated with weight `len(formations) - i`; the counter `n` carries that
weight, starting at the full length. -/
def weightedFromRev : List String → Nat → List String
  | [], _ => []
  | f :: rest, n => List.replicate n f ++ weightedFromRev rest (n - 1)

/-- The `weighted_formations` list of
`OptimizedLineupPredictor._predict_formation_advanced`. -/
def weightedFormations (formations : List String) : List String :=
  weightedFromRev formations.reverse formations.length

/-- The recency-weighted multiplicity a formation receives in
`_predict_formation_advanced` (oldest occurrence counts 1, each newer
occurrence one more). -/
def weightedCount (f : String) (formations : List String) : Nat :=
  (weightedFormations formations).count f

/-- `OptimizedLineupPredictor._predict_formation_advanced`: the truthy news
formation hint if any; else the most common entry of the recency-weighted
formation list; else the default "4-3-3". -/
def predict_formation_advanced (recent_lineups : List Lineup)
    (news_insights : Option NewsData) : String :=
  match newsFormationHint news_insights with
  | some s => s
  | none =>
    match mostCommon (weightedFormations (lineupFormations recent_lineups)) with
    | some f => f
    | none => "4-3-3"

/-- The augmented player dict `{**player, "selection_score": score}` built
in `OptimizedLineupPredictor._select_optimal_lineup`. -/
structure ScoredPlayer where
  player : Player
  selection_score : ℚ
deriving DecidableEq, Repr

/-- Insert into a list already sorted by descending score, after every
element of score greater or equal (so that folding from the left is a
STABLE descending sort, matching Python
`list.sort(key=..., reverse=True)`). -/
def insertScoredDesc (x : ScoredPlayer) : List ScoredPlayer → List ScoredPlayer
  | [] => [x]
  | y :: ys =>
    if x.selection_score ≤ y.selection_score then y :: insertScoredDesc x ys
    else x :: y :: ys

/-- Stable descending sort by `selection_score`, the semantics of
`position_groups[position].sort(key=lambda x: x["selection_score"],
reverse=True)`. -/
def sortScoredDesc (l : List ScoredPlayer) : List ScoredPlayer :=
  l.foldl (fun acc x => insertScoredDesc x acc) []

/-- The `position_groups[pos]` bucket of
`OptimizedLineupPredictor._select_optimal_lineup`: squad members of that
position whose score (`player_scores.get(name, 0)`) is positive, augmented
with the score and sorted descending by it (stably, preserving squad
order on ties). -/
def positionGroup (squad : List Player) (player_scores : String → ℚ)
    (pos : String) : List ScoredPlayer :=
  sortScoredDesc
    ((squad.filter (fun p => p.position = pos ∧ 0 < player_scores p.name)).map
      (fun p => ⟨p, player_scores p.name⟩))

/-- `OptimizedLineupPredictor._select_optimal_lineup` for an already-parsed
formation: take the top goalkeeper and the leading slices of the outfield
buckets, backfill to 11 from the remaining OUTFIELD bucket members (sorted
descending by score), then pick up to 7 substitutes from the buckets in
goalkeeper/defender/midfielder/attacker order, skipping starters; return
`(starting_xi[:11], substitutes[:7])` (the 7-cap is enforced inside the
loop, the final slice is a no-op). -/
def startingXIofGroups (gks defs mids atts : List ScoredPlayer)
    (defenders_needed midfielders_needed attackers_needed : Nat) :
    List ScoredPlayer :=
  let starting_xi := gks.take 1 ++ defs.take defenders_needed
    ++ mids.take midfielders_needed ++ atts.take attackers_needed
  if starting_xi.length < 11 then
    let all_remaining :=
      (defs ++ mids ++ atts).filter (fun p => ¬ p ∈ starting_xi)
    starting_xi ++ (sortScoredDesc all_remaining).take (11 - starting_xi.length)
  else starting_xi

def substitutesOfGroups (gks defs mids atts starting_xi : List ScoredPlayer) :
    List ScoredPlayer :=
  (gks ++ defs ++ mids ++ atts).foldl
    (fun acc p =>
      if ¬ p ∈ starting_xi ∧ acc.length < 7 then acc ++ [p] else acc)
    []

def select_optimal_lineup (player_scores : String → ℚ)
    (defenders_needed midfielders_needed attackers_needed : Nat)
    (squad : List Player) : List ScoredPlayer × List ScoredPlayer :=
  let gks := positionGroup squad player_scores "Goalkeeper"
  let defs := positionGroup squad player_scores "Defender"
  let mids := positionGroup squad player_scores "Midfielder"
  let atts := positionGroup squad player_scores "Attacker"
  let starting_xi := startingXIofGroups gks defs mids atts
    defenders_needed midfielders_needed attackers_needed
  (starting_xi.take 11, substitutesOfGroups gks defs mids atts starting_xi)

/-- Formation parsing of `_select_optimal_lineup` lines 338-344: at least 3
parts parses the first three with `int` (failure raises, modelled `none`),
fewer parts falls back to (4, 3, 3). -/
def parseFormationOptimized (formation : String) : Option (Nat × Nat × Nat) :=
  match formation.splitOn "-" with
  | a :: b :: c :: _ => do pure (← strToNat? a, ← strToNat? b, ← strToNat? c)
  | _ => some (4, 3, 3)

/-- The confidence dict of
`OptimizedLineupPredictor._calculate_confidence_breakdown`. -/
structure ConfidenceBreakdown where
  data_completeness : ℚ
  data_recency : ℚ
  source_reliability : ℚ
  prediction_consistency : ℚ
  overall : ℚ
deriving DecidableEq, Repr

/-- `OptimizedLineupPredictor._calculate_confidence_breakdown`:
completeness is the mean of five graded indicators, recency decays the age
in hours of the news `last_update` (0.3 when absent), reliability is the
news confidence (0.5 when there is no news dict), consistency is the fixed
placeholder 0.7, and the overall value is their weighted sum with weights
0.3 / 0.25 / 0.25 / 0.2. -/
def calculate_confidence_breakdown (squad : List Player)
    (injuries : List Injury) (news_insights : Option NewsData)
    (recent_lineups : List Lineup) (player_form : List (String × ℚ)) :
    ConfidenceBreakdown :=
  let completeness_factors : List ℚ :=
    [ if 20 ≤ squad.length then 1 else (squad.length : ℚ) / 20,
      if 3 ≤ recent_lineups.length then 1 else (recent_lineups.length : ℚ) / 3,
      if injuries = [] then 1/2 else 1,
      if news_insights = none then 1/2 else 1,
      if player_form = [] then 1/2 else 1 ]
  let data_completeness := completeness_factors.sum / (completeness_factors.length : ℚ)
  let data_recency :=
    match news_insights with
    | some nd =>
      match nd.last_update with
      | some hours_old => max 0 (1 - hours_old / 24)
      | none => 3/10
    | none => 3/10
  let source_reliability :=
    match news_insights with
    | some nd => nd.confidence
    | none => 1/2
  let prediction_consistency : ℚ := 7/10
  { data_completeness := data_completeness
    data_recency := data_recency
    source_reliability := source_reliability
    prediction_consistency := prediction_consistency
    overall := (3/10) * data_completeness + (25/100) * data_recency
      + (25/100) * source_reliability + (2/10) * prediction_consistency }

/-- `InjuryTracker._determine_severity`: keyword buckets over the
lowercased injury-type text. -/
def determine_severity (injury_type : String) : String :=
  let t := strToLower injury_type
  if ["cruciate", "acl", "broken", "fracture", "surgery"].any
      (fun w => strContains t w) then "severe"
  else if ["hamstring", "muscle", "strain", "sprain"].any
      (fun w => strContains t w) then "moderate"
  else if ["knock", "minor", "doubt", "ill"].any
      (fun w => strContains t w) then "minor"
  else "unknown"

/-- `APIFootballClient.TEAM_IDS`, the lowercase team-name lookup table. -/
def TEAM_IDS : List (String × Nat) :=
  [("arsenal", 42), ("chelsea", 49), ("liverpool", 40),
   ("manchester united", 33), ("manchester city", 50), ("tottenham", 47),
   ("leicester", 46), ("west ham", 48), ("everton", 45), ("newcastle", 34),
   ("real madrid", 541), ("barcelona", 529), ("atletico madrid", 530),
   ("bayern munich", 157), ("borussia dortmund", 165), ("psg", 85),
   ("juventus", 496), ("inter milan", 505), ("ac milan", 489), ("ajax", 203)]

/-- The external provider outcomes a `get_team_injuries` call can observe:
each HTTP call either raises (`Except.error`) or returns a status code
together with the decoded payload (team ids of the search response;
transformed injury records of the injuries response). -/
structure ProviderEnv where
  searchHTTP : Except Unit (Nat × List Nat)
  injuriesHTTP : Except Unit (Nat × List Injury)

/-- `InjuryTracker._find_team_id`: on a thrown request (caught and logged)
or a non-200 status or an empty result list, `none`; otherwise the first
returned team id. -/
def find_team_id (env : ProviderEnv) : Option Nat :=
  match env.searchHTTP with
  | .error _ => none
  | .ok (status, teams) => if status = 200 then teams.head? else none

/-- The hard-coded demo records of `_fetch_api_football_injuries`
(lines 117-142), substituted for top teams when the API returns nothing. -/
def demo_injuries : List Injury :=
  [{ player_name := "Example Player 1", severity := some "moderate",
     status := "injured", description := "Hamstring strain" },
   { player_name := "Example Player 2", severity := some "minor",
     status := "suspended", description := "Red card - 3 match ban" }]

/-- `InjuryTracker._fetch_api_football_injuries`: a thrown request (caught)
or a non-200 status yields `[]`; a 200 response yields the transformed
records, with the demo list substituted when the records are empty and the
team is one of the hard-coded top teams. -/
def fetch_api_football_injuries (env : ProviderEnv) (team_id : Nat) :
    List Injury :=
  match env.injuriesHTTP with
  | .error _ => []
  | .ok (status, injuries) =>
    if status = 200 then
      if injuries = [] ∧ team_id ∈ [49, 42, 40, 33, 50] then demo_injuries
      else injuries
    else []

/-- `InjuryTracker.get_team_injuries`: resolve the team id through the
lookup table (a falsy value, miss or 0, falls back to the provider
search); with no id, return the empty list; otherwise fetch.  The
enclosing `try/except` returns the accumulated `injuries` value (still
`[]`) on any error; both helpers already catch their own errors, so the
function never raises. -/
def get_team_injuries (env : ProviderEnv) (team_name : String) :
    List Injury :=
  let team_id :=
    match TEAM_IDS.lookup (strToLower team_name) with
    | some id => if id = 0 then find_team_id env else some id
    | none => find_team_id env
  match team_id with
  | some id => if id = 0 then [] else fetch_api_football_injuries env id
  | none => []

/-- A collected news item; only the fields the insight extraction reads. -/
structure NewsItem where
  content : String := ""
  source : String := ""
deriving DecidableEq, Repr

/-- Python regex word character (`\w`): alphanumeric or underscore. -/
def isWordChar (c : Char) : Bool :=
  c.isAlphanum || c = '_'

/-- Python regex whitespace (`\s`). -/
def isPySpace (c : Char) : Bool :=
  c = ' ' || c = '\t' || c = '\n' || c = '\r' || c = '\x0b' || c = '\x0c'

/-- Digit class `[3-5]`. -/
def isD35 (c : Char) : Bool := c = '3' || c = '4' || c = '5'

/-- Digit class `[1-5]`. -/
def isD15 (c : Char) : Bool := '1' ≤ c && c ≤ '5'

/-- Digit class `[1-3]`. -/
def isD13 (c : Char) : Bool := '1' ≤ c && c ≤ '3'

/-- `re.search` driver for a matcher that needs a word boundary `\b` right
before its (word-character) first match position: try every start
position from the left, skipping positions preceded by a word character. -/
def searchWordBoundary (matcher : List Char → Option String) :
    Bool → List Char → Option String
  | _, [] => none
  | prevIsWord, c :: rest =>
    match if prevIsWord then none else matcher (c :: rest) with
    | some f => some f
    | none => searchWordBoundary matcher (isWordChar c) rest

/-- `re.search` driver for a matcher with no leading boundary: try every
start position from the left. -/
def searchAnywhere (matcher : List Char → Option String) :
    List Char → Option String
  | [] => none
  | c :: rest =>
    match matcher (c :: rest) with
    | some f => some f
    | none => searchAnywhere matcher rest

/-- Match of `([3-5])-([1-5])-([1-5])-?([1-3])?\b` at the start of the
character list (the leading `\b` is enforced by `searchWordBoundary`).
The optional tail follows the backtracking order of the regex engine:
greedy `-?` and `([1-3])?` first, falling back until the trailing word
boundary holds; the returned string is `"-".join` of the captured digit
groups, so a match that only consumed a trailing `-` still yields the
three-digit formation. -/
def matchFormationP1 : List Char → Option String
  | d :: '-' :: m :: '-' :: f :: rest =>
    if isD35 d && isD15 m && isD15 f then
      match rest with
      | '-' :: x :: rest2 =>
        if isD13 x && (match rest2 with | [] => true | c :: _ => !isWordChar c)
        then some (String.mk [d, '-', m, '-', f, '-', x])
        else some (String.mk [d, '-', m, '-', f])
      | ['-'] => some (String.mk [d, '-', m, '-', f])
      | [] => some (String.mk [d, '-', m, '-', f])
      | x :: rest2 =>
        if isD13 x && (match rest2 with | [] => true | c :: _ => !isWordChar c)
        then some (String.mk [d, '-', m, '-', f, '-', x])
        else if !isWordChar x then some (String.mk [d, '-', m, '-', f])
        else none
    else none
  | _ => none

/-- Literal-prefix matcher: consume `lit` from the front of `cs`. -/
def dropLit : List Char → List Char → Option (List Char)
  | [], cs => some cs
  | _ :: _, [] => none
  | l :: ls, c :: cs => if l = c then dropLit ls cs else none

/-- Match of `formation:?\s*([3-5])-([1-5])-([1-5])` at the start of the
character list: the literal, an optional colon, a greedy whitespace run,
then the three digit groups (returned dash-joined). -/
def matchFormationP2 (cs : List Char) : Option String :=
  match dropLit "formation".toList cs with
  | none => none
  | some cs1 =>
    let cs2 := match cs1 with | ':' :: r => r | _ => cs1
    match cs2.dropWhile isPySpace with
    | d :: '-' :: m :: '-' :: f :: _ =>
      if isD35 d && isD15 m && isD15 f then some (String.mk [d, '-', m, '-', f])
      else none
    | _ => none

/-- Match of `line up in a?\s*([3-5])-([1-5])-([1-5])` at the start of the
character list. -/
def matchFormationP3 (cs : List Char) : Option String :=
  match dropLit "line up in ".toList cs with
  | none => none
  | some cs1 =>
    let cs2 := match cs1 with | 'a' :: r => r | _ => cs1
    match cs2.dropWhile isPySpace with
    | d :: '-' :: m :: '-' :: f :: _ =>
      if isD35 d && isD15 m && isD15 f then some (String.mk [d, '-', m, '-', f])
      else none
    | _ => none

/-- The formation-extraction block of
`OptimizedNewsAnalyzer._extract_lineup_insights_optimized` for ONE item:
the three patterns are tried in order over the lowercased content and the
first pattern that matches anywhere wins (the `break`). -/
def findFormationOptimized (content : String) : Option String :=
  let cs := (strToLower content).toList
  match searchWordBoundary matchFormationP1 false cs with
  | some f => some f
  | none =>
    match searchAnywhere matchFormationP2 cs with
    | some f => some f
    | none => searchAnywhere matchFormationP3 cs

/-- Match of `(4-[0-9]-[0-9]|3-[0-9]-[0-9]|5-[0-9]-[0-9])\b` at the start
of the character list (leading `\b` enforced by `searchWordBoundary`),
the pattern of `NewsAnalyzer._extract_lineup_insights`. -/
def matchFormationSimple : List Char → Option String
  | d :: '-' :: m :: '-' :: f :: rest =>
    if (d = '4' || d = '3' || d = '5') && m.isDigit && f.isDigit
        && (match rest with | [] => true | c :: _ => !isWordChar c)
    then some (String.mk [d, '-', m, '-', f])
    else none
  | _ => none

/-- The formation-hint search of `NewsAnalyzer._extract_lineup_insights`
for one item (lowercased content, leftmost match). -/
def findFormationSimple (content : String) : Option String :=
  searchWordBoundary matchFormationSimple false (strToLower content).toList

/-- The `formation_hints` field of the insights dict returned by
`OptimizedNewsAnalyzer._extract_lineup_insights_optimized`: the field
starts as `None` and is overwritten by every item whose content matches a
formation pattern, so the scan is a left fold that keeps the latest
match.  (No other statement of the loop writes this field.) -/
def extract_formation_hints_optimized (news_items : List NewsItem) :
    Option String :=
  news_items.foldl
    (fun acc item =>
      match findFormationOptimized item.content with
      | some f => some f
      | none => acc)
    none

/-- The `formation_hints` field of the insights dict returned by
`NewsAnalyzer._extract_lineup_insights`: same overwrite-on-match fold as
the optimized analyzer, with the simpler pattern. -/
def extract_formation_hints_simple (news_items : List NewsItem) :
    Option String :=
  news_items.foldl
    (fun acc item =>
      match findFormationSimple item.content with
      | some f => some f
      | none => acc)
    none

/-! ### Lemmas about the stable descending sort -/

lemma insertScoredDesc_perm (x : ScoredPlayer) (l : List ScoredPlayer) :
    List.Perm (insertScoredDesc x l) (x :: l) := by
  induction l with
  | nil => exact List.Perm.refl _
  | cons y ys ih =>
    unfold insertScoredDesc
    by_cases h : x.selection_score ≤ y.selection_score
    · simpa [h] using (ih.cons y).trans (List.Perm.swap x y ys)
    · simp [h]

lemma sortScoredDesc_aux_perm (l acc : List ScoredPlayer) :
    List.Perm (l.foldl (fun acc x => insertScoredDesc x acc) acc) (l ++ acc) := by
  induction l generalizing acc with
  | nil => simp
  | cons x xs ih =>
    refine List.Perm.trans (ih (insertScoredDesc x acc)) ?_
    refine List.Perm.trans ((insertScoredDesc_perm x acc).append_left xs) ?_
    exact List.perm_middle

lemma sortScoredDesc_perm (l : List ScoredPlayer) :
    List.Perm (sortScoredDesc l) l := by
  simpa using sortScoredDesc_aux_perm l []

lemma mem_sortScoredDesc {x : ScoredPlayer} {l : List ScoredPlayer} :
    x ∈ sortScoredDesc l ↔ x ∈ l :=
  (sortScoredDesc_perm l).mem_iff

lemma length_sortScoredDesc (l : List ScoredPlayer) :
    (sortScoredDesc l).length = l.length :=
  (sortScoredDesc_perm l).length_eq

lemma nodup_sortScoredDesc {l : List ScoredPlayer} (h : l.Nodup) :
    (sortScoredDesc l).Nodup :=
  (sortScoredDesc_perm l).nodup_iff.mpr h

/-! ### Lemmas about position buckets -/

lemma mem_positionGroup {squad : List Player} {player_scores : String → ℚ}
    {pos : String} {sp : ScoredPlayer} :
    sp ∈ positionGroup squad player_scores pos ↔
      sp.player ∈ squad ∧ sp.player.position = pos ∧
        0 < player_scores sp.player.name ∧
        sp.selection_score = player_scores sp.player.name := by
  unfold positionGroup
  rw [mem_sortScoredDesc, List.mem_map]
  constructor
  · rintro ⟨p, hp, rfl⟩
    rw [List.mem_filter] at hp
    have hcond := of_decide_eq_true hp.2
    exact ⟨hp.1, hcond.1, hcond.2, rfl⟩
  · rintro ⟨hmem, hpos, hscore, hval⟩
    refine ⟨sp.player, List.mem_filter.mpr ⟨hmem, decide_eq_true ⟨hpos, hscore⟩⟩, ?_⟩
    cases sp with
    | mk p s => simp only at hval; simp [hval]

lemma positionGroup_nodup {squad : List Player} {player_scores : String → ℚ}
    {pos : String} (h : squad.Nodup) :
    (positionGroup squad player_scores pos).Nodup := by
  unfold positionGroup
  refine nodup_sortScoredDesc ?_
  refine List.Nodup.map ?_ (h.filter _)
  intro a b hab
  simpa using congrArg ScoredPlayer.player hab

/-! ### Lemmas about the optimized selector -/

lemma substitutesFold_props (starting_xi l acc : List ScoredPlayer)
    (hmem : ∀ p ∈ acc, ¬ p ∈ starting_xi) (hlen : acc.length ≤ 7) :
    (∀ p ∈ l.foldl
        (fun acc p =>
          if ¬ p ∈ starting_xi ∧ acc.length < 7 then acc ++ [p] else acc)
        acc, ¬ p ∈ starting_xi)
    ∧ (l.foldl
        (fun acc p =>
          if ¬ p ∈ starting_xi ∧ acc.length < 7 then acc ++ [p] else acc)
        acc).length ≤ 7 := by
  induction l generalizing acc with
  | nil => exact ⟨hmem, hlen⟩
  | cons q qs ih =>
    simp only [List.foldl_cons]
    by_cases h : ¬ q ∈ starting_xi ∧ acc.length < 7
    · rw [if_pos h]
      refine ih _ ?_ ?_
      · intro p hp
        rcases List.mem_append.mp hp with h1 | h2
        · exact hmem p h1
        · rw [List.mem_singleton] at h2; subst h2; exact h.1
      · simp only [List.length_append, List.length_singleton]
        omega
    · rw [if_neg h]; exact ih _ hmem hlen

lemma substitutesOfGroups_props (gks defs mids atts starting_xi :
    List ScoredPlayer) :
    (∀ p ∈ substitutesOfGroups gks defs mids atts starting_xi,
        ¬ p ∈ starting_xi)
    ∧ (substitutesOfGroups gks defs mids atts starting_xi).length ≤ 7 := by
  unfold substitutesOfGroups
  exact substitutesFold_props starting_xi _ [] (by simp) (by simp)

lemma mem_startingXIofGroups {gks defs mids atts : List ScoredPlayer}
    {d m f : Nat} {sp : ScoredPlayer}
    (h : sp ∈ startingXIofGroups gks defs mids atts d m f) :
    sp ∈ gks ∨ sp ∈ defs ∨ sp ∈ mids ∨ sp ∈ atts := by
  unfold startingXIofGroups at h
  by_cases hlen : (gks.take 1 ++ defs.take d ++ mids.take m
      ++ atts.take f).length < 11
  · rw [if_pos hlen] at h
    rcases List.mem_append.mp h with h1 | h2
    · rcases List.mem_append.mp h1 with h3 | h4
      · rcases List.mem_append.mp h3 with h5 | h6
        · rcases List.mem_append.mp h5 with h7 | h8
          · exact Or.inl (List.mem_of_mem_take h7)
          · exact Or.inr (Or.inl (List.mem_of_mem_take h8))
        · exact Or.inr (Or.inr (Or.inl (List.mem_of_mem_take h6)))
      · exact Or.inr (Or.inr (Or.inr (List.mem_of_mem_take h4)))
    · have h5 := List.mem_of_mem_take h2
      rw [mem_sortScoredDesc] at h5
      have h6 := List.mem_of_mem_filter h5
      rcases List.mem_append.mp h6 with h7 | h8
      · rcases List.mem_append.mp h7 with h9 | h10
        · exact Or.inr (Or.inl h9)
        · exact Or.inr (Or.inr (Or.inl h10))
      · exact Or.inr (Or.inr (Or.inr h8))
  · rw [if_neg hlen] at h
    rcases List.mem_append.mp h with h3 | h4
    · rcases List.mem_append.mp h3 with h5 | h6
      · rcases List.mem_append.mp h5 with h7 | h8
        · exact Or.inl (List.mem_of_mem_take h7)
        · exact Or.inr (Or.inl (List.mem_of_mem_take h8))
      · exact Or.inr (Or.inr (Or.inl (List.mem_of_mem_take h6)))
    · exact Or.inr (Or.inr (Or.inr (List.mem_of_mem_take h4)))

/-- Every member of the returned starting XI belongs to one of the four
position buckets, hence is a squad member with a positive score. -/
lemma mem_select_optimal_xi {player_scores : String → ℚ} {d m f : Nat}
    {squad : List Player} {sp : ScoredPlayer}
    (h : sp ∈ (select_optimal_lineup player_scores d m f squad).1) :
    sp.player ∈ squad ∧ 0 < player_scores sp.player.name ∧
      sp.selection_score = player_scores sp.player.name := by
  unfold select_optimal_lineup at h
  simp only at h
  have h2 := mem_startingXIofGroups (List.mem_of_mem_take h)
  rcases h2 with hg | hd | hm | ha
  · have := mem_positionGroup.mp hg; exact ⟨this.1, this.2.2.1, this.2.2.2⟩
  · have := mem_positionGroup.mp hd; exact ⟨this.1, this.2.2.1, this.2.2.2⟩
  · have := mem_positionGroup.mp hm; exact ⟨this.1, this.2.2.1, this.2.2.2⟩
  · have := mem_positionGroup.mp ha; exact ⟨this.1, this.2.2.1, this.2.2.2⟩

/-! ### Counting lemmas used for the starting-XI size claims -/

lemma filter_not_mem_eq_drop {α : Type} [DecidableEq α] {l : List α}
    (hnd : l.Nodup) (n : Nat) (xi : List α)
    (hiff : ∀ x ∈ l, (x ∈ xi ↔ x ∈ l.take n)) :
    l.filter (fun p => ¬ p ∈ xi) = l.drop n := by
  have hsplit : l.take n ++ l.drop n = l := List.take_append_drop n l
  have hdisj : (l.take n).Disjoint (l.drop n) := by
    have h2 : (l.take n ++ l.drop n).Nodup := by rwa [hsplit]
    exact (List.nodup_append.mp h2).2.2
  conv_lhs => rw [← hsplit]
  rw [List.filter_append]
  have h1 : (l.take n).filter (fun p => ¬ p ∈ xi) = [] := by
    rw [List.filter_eq_nil_iff]
    intro a ha
    have haxi : a ∈ xi := (hiff a (List.mem_of_mem_take ha)).mpr ha
    simp [haxi]
  have h2 : (l.drop n).filter (fun p => ¬ p ∈ xi) = l.drop n := by
    rw [List.filter_eq_self]
    intro a ha
    have hal : a ∈ l := by
      rw [← hsplit]; exact List.mem_append.mpr (Or.inr ha)
    have hnot : ¬ a ∈ xi := fun hmem => hdisj ((hiff a hal).mp hmem) ha
    simp [hnot]
  rw [h1, h2, List.nil_append]

lemma length_take_add_length_drop {α : Type} (l : List α) (n : Nat) :
    (l.take n).length + (l.drop n).length = l.length := by
  rw [List.length_take, List.length_drop]
  omega

/-- Zeta-reduced form of `select_starting_xi`, for rewriting in proofs. -/
lemma select_starting_xi_unfold (available : List Player) (d m f : Nat) :
    select_starting_xi available d m f =
      (if ((available.filter (fun p => p.position = "Goalkeeper")).take 1
            ++ (available.filter (fun p => p.position = "Defender")).take d
            ++ (available.filter (fun p => p.position = "Midfielder")).take m
            ++ (available.filter (fun p => p.position = "Attacker")).take f).length
          < 11 then
        ((available.filter (fun p => p.position = "Goalkeeper")).take 1
            ++ (available.filter (fun p => p.position = "Defender")).take d
            ++ (available.filter (fun p => p.position = "Midfielder")).take m
            ++ (available.filter (fun p => p.position = "Attacker")).take f)
          ++ (available.filter
              (fun p => ¬ p ∈
                ((available.filter (fun p => p.position = "Goalkeeper")).take 1
                  ++ (available.filter (fun p => p.position = "Defender")).take d
                  ++ (available.filter (fun p => p.position = "Midfielder")).take m
                  ++ (available.filter (fun p => p.position = "Attacker")).take f))).take
            (11 - ((available.filter (fun p => p.position = "Goalkeeper")).take 1
              ++ (available.filter (fun p => p.position = "Defender")).take d
              ++ (available.filter (fun p => p.position = "Midfielder")).take m
              ++ (available.filter (fun p => p.position = "Attacker")).take f).length)
      else
        ((available.filter (fun p => p.position = "Goalkeeper")).take 1
          ++ (available.filter (fun p => p.position = "Defender")).take d
          ++ (available.filter (fun p => p.position = "Midfielder")).take m
          ++ (available.filter (fun p => p.position = "Attacker")).take f)).take 11 :=
  rfl

/-! ### Lemmas about the simple selector -/

lemma select_starting_xi_length {available : List Player} {d m f : Nat}
    (hnd : available.Nodup) (h11 : 11 ≤ available.length) :
    (select_starting_xi available d m f).length = 11 := by
  rw [select_starting_xi_unfold]
  set base := (available.filter (fun p => p.position = "Goalkeeper")).take 1
    ++ (available.filter (fun p => p.position = "Defender")).take d
    ++ (available.filter (fun p => p.position = "Midfielder")).take m
    ++ (available.filter (fun p => p.position = "Attacker")).take f with hbase
  by_cases hlt : base.length < 11
  · rw [if_pos hlt]
    have hperm := List.filter_append_perm (fun p => decide (p ∈ base)) available
    have hlenperm := hperm.length_eq
    rw [List.length_append] at hlenperm
    have hsub : (available.filter (fun p => decide (p ∈ base))).length
        ≤ base.length := by
      refine List.Subperm.length_le ?_
      refine List.Nodup.subperm (hnd.filter _) ?_
      intro x hx
      have := List.of_mem_filter hx
      simpa using this
    have hrem : 11 - base.length
        ≤ (available.filter (fun x => ¬ x ∈ base)).length := by
      have hq : (available.filter (fun x => ¬ x ∈ base)).length
          = (available.filter (fun p => !(decide (p ∈ base)))).length := by
        congr 1
        apply List.filter_congr
        intro x _
        simp
      omega
    rw [List.length_take, List.length_append, List.length_take]
    omega
  · rw [if_neg hlt]
    rw [List.length_take]
    omega

lemma select_starting_xi_gk {available : List Player} {d m f : Nat}
    (hgk : ∃ p ∈ available, p.position = "Goalkeeper") :
    ∃ p ∈ select_starting_xi available d m f,
      p.position = "Goalkeeper" := by
  rw [select_starting_xi_unfold]
  obtain ⟨g0, hg0, hg0pos⟩ := hgk
  have hmem : g0 ∈ available.filter (fun p => p.position = "Goalkeeper") :=
    List.mem_filter.mpr ⟨hg0, by simp [hg0pos]⟩
  obtain ⟨g, gs, hcons⟩ :
      ∃ g gs, available.filter (fun p => p.position = "Goalkeeper")
        = g :: gs := by
    cases hh : available.filter (fun p => p.position = "Goalkeeper") with
    | nil => rw [hh] at hmem; simp at hmem
    | cons a as => exact ⟨a, as, rfl⟩
  have hgpos : g.position = "Goalkeeper" := by
    have hgin : g ∈ available.filter (fun p => p.position = "Goalkeeper") := by
      rw [hcons]; exact List.mem_cons_self g gs
    exact of_decide_eq_true (List.mem_filter.mp hgin).2
  refine ⟨g, ?_, hgpos⟩
  rw [hcons]
  split
  · exact List.mem_cons_self _ _
  · exact List.mem_cons_self _ _

/-- Zeta-reduced form of `startingXIofGroups`, for rewriting in proofs. -/
lemma startingXIofGroups_unfold (gks defs mids atts : List ScoredPlayer)
    (d m f : Nat) :
    startingXIofGroups gks defs mids atts d m f =
      if (gks.take 1 ++ defs.take d ++ mids.take m ++ atts.take f).length
          < 11 then
        (gks.take 1 ++ defs.take d ++ mids.take m ++ atts.take f)
          ++ (sortScoredDesc ((defs ++ mids ++ atts).filter
              (fun p => ¬ p ∈ (gks.take 1 ++ defs.take d ++ mids.take m
                ++ atts.take f)))).take
            (11 - (gks.take 1 ++ defs.take d ++ mids.take m
              ++ atts.take f).length)
      else gks.take 1 ++ defs.take d ++ mids.take m ++ atts.take f :=
  rfl

lemma positionGroup_position {squad : List Player} {ps : String → ℚ}
    {pos : String} {x : ScoredPlayer}
    (h : x ∈ positionGroup squad ps pos) : x.player.position = pos :=
  (mem_positionGroup.mp h).2.1

lemma startingXIofGroups_split (gks defs mids atts : List ScoredPlayer)
    (d m f : Nat) :
    ∃ tail, startingXIofGroups gks defs mids atts d m f = gks.take 1 ++ tail
      ∧ ∀ p ∈ tail, p ∈ defs ∨ p ∈ mids ∨ p ∈ atts := by
  rw [startingXIofGroups_unfold]
  split
  · refine ⟨defs.take d ++ mids.take m ++ atts.take f
      ++ (sortScoredDesc ((defs ++ mids ++ atts).filter
        (fun p => ¬ p ∈ (gks.take 1 ++ defs.take d ++ mids.take m
          ++ atts.take f)))).take
        (11 - (gks.take 1 ++ defs.take d ++ mids.take m
          ++ atts.take f).length), ?_, ?_⟩
    · simp [List.append_assoc]
    · intro p hp
      rcases List.mem_append.mp hp with h1 | h2
      · rcases List.mem_append.mp h1 with h3 | h4
        · rcases List.mem_append.mp h3 with h5 | h6
          · exact Or.inl (List.mem_of_mem_take h5)
          · exact Or.inr (Or.inl (List.mem_of_mem_take h6))
        · exact Or.inr (Or.inr (List.mem_of_mem_take h4))
      · have h5 := List.mem_of_mem_take h2
        rw [mem_sortScoredDesc] at h5
        have h6 := List.mem_of_mem_filter h5
        rcases List.mem_append.mp h6 with h7 | h8
        · rcases List.mem_append.mp h7 with h9 | h10
          · exact Or.inl h9
          · exact Or.inr (Or.inl h10)
        · exact Or.inr (Or.inr h8)
  · refine ⟨defs.take d ++ mids.take m ++ atts.take f, ?_, ?_⟩
    · simp [List.append_assoc]
    · intro p hp
      rcases List.mem_append.mp hp with h1 | h2
      · rcases List.mem_append.mp h1 with h3 | h4
        · exact Or.inl (List.mem_of_mem_take h3)
        · exact Or.inr (Or.inl (List.mem_of_mem_take h4))
      · exact Or.inr (Or.inr (List.mem_of_mem_take h2))

/-- The starting XI returned by the optimized selector never contains two
goalkeepers; when at least one goalkeeper has a positive score it contains
exactly one. -/
lemma countP_GK_select_optimal (ps : String → ℚ) (d m f : Nat)
    (squad : List Player) :
    ((select_optimal_lineup ps d m f squad).1).countP
        (fun sp => sp.player.position = "Goalkeeper") ≤ 1
    ∧ (positionGroup squad ps "Goalkeeper" ≠ [] →
        ((select_optimal_lineup ps d m f squad).1).countP
          (fun sp => sp.player.position = "Goalkeeper") = 1) := by
  obtain ⟨tail, hsplit, htail⟩ := startingXIofGroups_split
    (positionGroup squad ps "Goalkeeper") (positionGroup squad ps "Defender")
    (positionGroup squad ps "Midfielder") (positionGroup squad ps "Attacker")
    d m f
  have hxi : (select_optimal_lineup ps d m f squad).1
      = ((positionGroup squad ps "Goalkeeper").take 1 ++ tail).take 11 := by
    unfold select_optimal_lineup
    simp only
    rw [hsplit]
  have htail0 : tail.countP (fun sp => sp.player.position = "Goalkeeper") = 0 := by
    rw [List.countP_eq_zero]
    intro a ha
    rcases htail a ha with h | h | h
    · have := positionGroup_position h; simp [this]
    · have := positionGroup_position h; simp [this]
    · have := positionGroup_position h; simp [this]
  rw [hxi, List.take_append_eq_append_take, List.countP_append]
  have htail0' : (tail.take
      (11 - ((positionGroup squad ps "Goalkeeper").take 1).length)).countP
      (fun sp => sp.player.position = "Goalkeeper") = 0 := by
    have hsub := List.take_sublist
      (11 - ((positionGroup squad ps "Goalkeeper").take 1).length) tail
    have := hsub.countP_le (fun sp => decide (sp.player.position = "Goalkeeper"))
    omega
  constructor
  · have h1 : (((positionGroup squad ps "Goalkeeper").take 1).take 11).countP
        (fun sp => sp.player.position = "Goalkeeper") ≤ 1 := by
      have := @List.countP_le_length ScoredPlayer
        (fun sp => decide (sp.player.position = "Goalkeeper"))
        (((positionGroup squad ps "Goalkeeper").take 1).take 11)
      have h2 : (((positionGroup squad ps "Goalkeeper").take 1).take 11).length ≤ 1 := by
        rw [List.length_take, List.length_take]
        omega
      omega
    omega
  · intro hne
    obtain ⟨g, gs, hcons⟩ : ∃ g gs,
        positionGroup squad ps "Goalkeeper" = g :: gs := by
      cases hh : positionGroup squad ps "Goalkeeper" with
      | nil => exact absurd hh hne
      | cons a as => exact ⟨a, as, rfl⟩
    have hgpos : g.player.position = "Goalkeeper" := by
      refine @positionGroup_position squad ps "Goalkeeper" g ?_
      rw [hcons]; exact List.mem_cons_self g gs
    have h1 : (((positionGroup squad ps "Goalkeeper").take 1).take 11).countP
        (fun sp => sp.player.position = "Goalkeeper") = 1 := by
      rw [hcons]
      show List.countP _ [g] = 1
      simp [hgpos]
    omega

lemma length_startingXIofGroups {gks defs mids atts : List ScoredPlayer}
    {d m f : Nat}
    (hgks : ∀ x ∈ gks, x.player.position = "Goalkeeper")
    (hdefs : ∀ x ∈ defs, x.player.position = "Defender")
    (hmids : ∀ x ∈ mids, x.player.position = "Midfielder")
    (hatts : ∀ x ∈ atts, x.player.position = "Attacker")
    (hndd : defs.Nodup) (hndm : mids.Nodup) (hnda : atts.Nodup)
    (hgk : gks ≠ [])
    (hK : 10 ≤ defs.length + mids.length + atts.length) :
    11 ≤ (startingXIofGroups gks defs mids atts d m f).length := by
  rw [startingXIofGroups_unfold]
  split
  case isFalse h => omega
  case isTrue h =>
    have hiffd : ∀ x ∈ defs,
        (x ∈ gks.take 1 ++ defs.take d ++ mids.take m ++ atts.take f
          ↔ x ∈ defs.take d) := by
      intro x hx
      have hdx := hdefs x hx
      constructor
      · intro hxb
        rcases List.mem_append.mp hxb with h1 | h2
        · rcases List.mem_append.mp h1 with h3 | h4
          · rcases List.mem_append.mp h3 with h5 | h6
            · exfalso
              have hgx := hgks x (List.mem_of_mem_take h5)
              rw [hgx] at hdx
              exact absurd hdx (by decide)
            · exact h6
          · exfalso
            have hmx := hmids x (List.mem_of_mem_take h4)
            rw [hmx] at hdx
            exact absurd hdx (by decide)
        · exfalso
          have hax := hatts x (List.mem_of_mem_take h2)
          rw [hax] at hdx
          exact absurd hdx (by decide)
      · intro ht
        exact List.mem_append.mpr (Or.inl (List.mem_append.mpr
          (Or.inl (List.mem_append.mpr (Or.inr ht)))))
    have hiffm : ∀ x ∈ mids,
        (x ∈ gks.take 1 ++ defs.take d ++ mids.take m ++ atts.take f
          ↔ x ∈ mids.take m) := by
      intro x hx
      have hmx := hmids x hx
      constructor
      · intro hxb
        rcases List.mem_append.mp hxb with h1 | h2
        · rcases List.mem_append.mp h1 with h3 | h4
          · rcases List.mem_append.mp h3 with h5 | h6
            · exfalso
              have hgx := hgks x (List.mem_of_mem_take h5)
              rw [hgx] at hmx
              exact absurd hmx (by decide)
            · exfalso
              have hdx := hdefs x (List.mem_of_mem_take h6)
              rw [hdx] at hmx
              exact absurd hmx (by decide)
          · exact h4
        · exfalso
          have hax := hatts x (List.mem_of_mem_take h2)
          rw [hax] at hmx
          exact absurd hmx (by decide)
      · intro ht
        exact List.mem_append.mpr (Or.inl (List.mem_append.mpr (Or.inr ht)))
    have hiffa : ∀ x ∈ atts,
        (x ∈ gks.take 1 ++ defs.take d ++ mids.take m ++ atts.take f
          ↔ x ∈ atts.take f) := by
      intro x hx
      have hax := hatts x hx
      constructor
      · intro hxb
        rcases List.mem_append.mp hxb with h1 | h2
        · rcases List.mem_append.mp h1 with h3 | h4
          · rcases List.mem_append.mp h3 with h5 | h6
            · exfalso
              have hgx := hgks x (List.mem_of_mem_take h5)
              rw [hgx] at hax
              exact absurd hax (by decide)
            · exfalso
              have hdx := hdefs x (List.mem_of_mem_take h6)
              rw [hdx] at hax
              exact absurd hax (by decide)
          · exfalso
            have hmx := hmids x (List.mem_of_mem_take h4)
            rw [hmx] at hax
            exact absurd hax (by decide)
        · exact h2
      · intro ht
        exact List.mem_append.mpr (Or.inr ht)
    have hfd := filter_not_mem_eq_drop hndd d
      (gks.take 1 ++ defs.take d ++ mids.take m ++ atts.take f) hiffd
    have hfm := filter_not_mem_eq_drop hndm m
      (gks.take 1 ++ defs.take d ++ mids.take m ++ atts.take f) hiffm
    have hfa := filter_not_mem_eq_drop hnda f
      (gks.take 1 ++ defs.take d ++ mids.take m ++ atts.take f) hiffa
    rw [List.filter_append, List.filter_append, hfd, hfm, hfa]
    have hglen : 1 ≤ gks.length := by
      cases gks with
      | nil => exact absurd rfl hgk
      | cons a as => simp
    rw [List.length_append, List.length_take, length_sortScoredDesc]
    simp only [List.length_append, List.length_take, List.length_drop] at h ⊢
    omega

lemma length_select_optimal_xi {ps : String → ℚ} {d m f : Nat}
    {squad : List Player} (hnd : squad.Nodup)
    (hgk : positionGroup squad ps "Goalkeeper" ≠ [])
    (hK : 10 ≤ (positionGroup squad ps "Defender").length
      + (positionGroup squad ps "Midfielder").length
      + (positionGroup squad ps "Attacker").length) :
    ((select_optimal_lineup ps d m f squad).1).length = 11 := by
  have h11 : 11 ≤ (startingXIofGroups (positionGroup squad ps "Goalkeeper")
      (positionGroup squad ps "Defender") (positionGroup squad ps "Midfielder")
      (positionGroup squad ps "Attacker") d m f).length := by
    refine length_startingXIofGroups ?_ ?_ ?_ ?_ ?_ ?_ ?_ hgk hK
    · intro x hx; exact positionGroup_position hx
    · intro x hx; exact positionGroup_position hx
    · intro x hx; exact positionGroup_position hx
    · intro x hx; exact positionGroup_position hx
    · exact positionGroup_nodup hnd
    · exact positionGroup_nodup hnd
    · exact positionGroup_nodup hnd
  have hxi : (select_optimal_lineup ps d m f squad).1
      = (startingXIofGroups (positionGroup squad ps "Goalkeeper")
        (positionGroup squad ps "Defender")
        (positionGroup squad ps "Midfielder")
        (positionGroup squad ps "Attacker") d m f).take 11 := rfl
  rw [hxi, List.length_take]
  omega

/-! ### Lemmas about the Counter model -/

lemma mem_firstOccKeys_aux (l : List String) :
    ∀ (acc : List String) (x : String),
      (x ∈ l.foldl (fun acc x => if x ∈ acc then acc else acc ++ [x]) acc
        ↔ x ∈ acc ∨ x ∈ l) := by
  induction l with
  | nil => intro acc x; simp
  | cons y ys ih =>
    intro acc x
    simp only [List.foldl_cons]
    by_cases hy : y ∈ acc
    · rw [if_pos hy, ih]
      constructor
      · rintro (h | h)
        · exact Or.inl h
        · exact Or.inr (List.mem_cons_of_mem y h)
      · rintro (h | h)
        · exact Or.inl h
        · rcases List.mem_cons.mp h with rfl | h2
          · exact Or.inl hy
          · exact Or.inr h2
    · rw [if_neg hy, ih]
      simp [List.mem_append, List.mem_cons, or_assoc]

lemma mem_firstOccKeys {x : String} {l : List String} :
    x ∈ firstOccKeys l ↔ x ∈ l := by
  unfold firstOccKeys
  simpa using mem_firstOccKeys_aux l [] x

lemma mostCommonFold_spec (l : List String) (ks : List String) :
    ∀ (b : String),
      ∃ c, ks.foldl
        (fun best k =>
          match best with
          | none => some k
          | some b => if l.count b < l.count k then some k else best)
        (some b) = some c
      ∧ (c = b ∨ c ∈ ks) ∧ l.count b ≤ l.count c
      ∧ ∀ x ∈ ks, l.count x ≤ l.count c := by
  induction ks with
  | nil =>
    intro b
    exact ⟨b, rfl, Or.inl rfl, le_refl _, by simp⟩
  | cons k ks ih =>
    intro b
    simp only [List.foldl_cons]
    by_cases h : l.count b < l.count k
    · obtain ⟨c, hc, hmem, hle, hall⟩ := ih k
      rw [if_pos h]
      refine ⟨c, hc, ?_, ?_, ?_⟩
      · rcases hmem with rfl | h2
        · exact Or.inr (List.mem_cons_self _ _)
        · exact Or.inr (List.mem_cons_of_mem _ h2)
      · exact le_trans (le_of_lt h) hle
      · intro x hx
        rcases List.mem_cons.mp hx with rfl | h2
        · exact hle
        · exact hall x h2
    · obtain ⟨c, hc, hmem, hle, hall⟩ := ih b
      rw [if_neg h]
      refine ⟨c, hc, ?_, hle, ?_⟩
      · rcases hmem with rfl | h2
        · exact Or.inl rfl
        · exact Or.inr (List.mem_cons_of_mem _ h2)
      · intro x hx
        rcases List.mem_cons.mp hx with rfl | h2
        · exact le_trans (le_of_not_lt h) hle
        · exact hall x h2

/-- `Counter(l).most_common(1)[0][0]` returns an element of `l` of maximal
multiplicity. -/
lemma mostCommon_spec {l : List String} (hne : l ≠ []) :
    ∃ c, mostCommon l = some c ∧ c ∈ l
      ∧ ∀ x ∈ l, l.count x ≤ l.count c := by
  unfold mostCommon
  obtain ⟨y, ys, rfl⟩ : ∃ y ys, l = y :: ys := by
    cases l with
    | nil => exact absurd rfl hne
    | cons a as => exact ⟨a, as, rfl⟩
  have hyk : y ∈ firstOccKeys (y :: ys) :=
    mem_firstOccKeys.mpr (List.mem_cons_self _ _)
  obtain ⟨k0, ks, hk⟩ : ∃ k0 ks, firstOccKeys (y :: ys) = k0 :: ks := by
    cases hh : firstOccKeys (y :: ys) with
    | nil => rw [hh] at hyk; simp at hyk
    | cons a as => exact ⟨a, as, rfl⟩
  rw [hk]
  simp only [List.foldl_cons]
  obtain ⟨c, hc, hmem, hle, hall⟩ := mostCommonFold_spec (y :: ys) ks k0
  refine ⟨c, hc, ?_, ?_⟩
  · have : c ∈ firstOccKeys (y :: ys) := by
      rw [hk]
      rcases hmem with rfl | h2
      · exact List.mem_cons_self _ _
      · exact List.mem_cons_of_mem _ h2
    exact mem_firstOccKeys.mp this
  · intro x hx
    have hxk : x ∈ firstOccKeys (y :: ys) := mem_firstOccKeys.mpr hx
    rw [hk] at hxk
    rcases List.mem_cons.mp hxk with rfl | h2
    · exact hle
    · exact hall x h2

/-! ### Lemmas about the recency weighting -/

lemma mem_weightedFromRev {x : String} :
    ∀ (l : List String) (n : Nat), l.length ≤ n →
      (x ∈ weightedFromRev l n ↔ x ∈ l) := by
  intro l
  induction l with
  | nil => intro n _; simp [weightedFromRev]
  | cons g rest ih =>
    intro n hn
    simp only [List.length_cons] at hn
    have h1 : 1 ≤ n := by omega
    unfold weightedFromRev
    rw [List.mem_append, List.mem_replicate, ih (n - 1) (by omega),
      List.mem_cons]
    constructor
    · rintro (⟨_, rfl⟩ | h)
      · exact Or.inl rfl
      · exact Or.inr h
    · rintro (rfl | h)
      · exact Or.inl ⟨by omega, rfl⟩
      · exact Or.inr h

lemma mem_weightedFormations {x : String} {l : List String} :
    x ∈ weightedFormations l ↔ x ∈ l := by
  unfold weightedFormations
  rw [mem_weightedFromRev l.reverse l.length (by simp), List.mem_reverse]

/-! ### Lemmas about the formation-hint fold -/

lemma getLast?_cons_match {α : Type} (a : α) (l : List α) :
    (a :: l).getLast? =
      match l.getLast? with | some x => some x | none => some a := by
  induction l generalizing a with
  | nil => rfl
  | cons b bs ih =>
    rw [List.getLast?_cons_cons, ih b]
    cases hbs : bs.getLast? <;> rfl

lemma overwriteFold_eq (g : NewsItem → Option String)
    (items : List NewsItem) :
    ∀ acc, items.foldl
        (fun acc item => match g item with | some f => some f | none => acc)
        acc
      = match (items.filterMap g).getLast? with
        | some f => some f
        | none => acc := by
  induction items with
  | nil => intro acc; rfl
  | cons it its ih =>
    intro acc
    simp only [List.foldl_cons, List.filterMap_cons]
    cases hg : g it with
    | none => simp only [hg]; rw [ih]
    | some f =>
      simp only [hg]
      rw [ih, getLast?_cons_match]
      cases h2 : (its.filterMap g).getLast? <;> rfl

/-! ### Bounds on the scoring components -/

lemma mem_of_lookup_eq_some {l : List (String × ℚ)} {k : String} {v : ℚ}
    (h : l.lookup k = some v) : (k, v) ∈ l := by
  induction l with
  | nil => simp [List.lookup] at h
  | cons p ps ih =>
    obtain ⟨a, b⟩ := p
    simp only [List.lookup] at h
    cases hk : (k == a) with
    | true =>
      rw [hk] at h
      simp only [Option.some.injEq] at h
      have hka : k = a := eq_of_beq hk
      rw [← hka, ← h]
      exact List.mem_cons_self _ _
    | false =>
      rw [hk] at h
      exact List.mem_cons_of_mem _ (ih h)

lemma dictGetD_cases (l : List (String × ℚ)) (k : String) (d : ℚ) :
    dictGetD l k d = d ∨ ∃ v, (k, v) ∈ l ∧ dictGetD l k d = v := by
  unfold dictGetD
  cases h : (l.reverse).lookup k with
  | none => exact Or.inl rfl
  | some v =>
    exact Or.inr ⟨v, List.mem_reverse.mp (mem_of_lookup_eq_some h), rfl⟩

lemma position_importance_ge (pos : String) :
    1/2 ≤ position_importance pos := by
  unfold position_importance
  split_ifs <;> norm_num

lemma calculate_appearance_rate_nonneg (name : String)
    (lineups : List Lineup) :
    0 ≤ calculate_appearance_rate name lineups := by
  unfold calculate_appearance_rate
  split_ifs
  · norm_num
  · positivity

lemma calculate_injury_impact_nonneg (name : String)
    (injuries : List Injury) :
    0 ≤ calculate_injury_impact name injuries := by
  unfold calculate_injury_impact
  cases injuries.find? (fun i => strToLower i.player_name = strToLower name) with
  | none => norm_num
  | some injury =>
    dsimp only
    split_ifs <;> norm_num

lemma calculate_news_score_nonneg (name : String)
    (news : Option NewsData)
    (hlik : ∀ nd, news = some nd →
      ∀ pr ∈ nd.insights.likely_starters, 0 ≤ pr.2)
    (hdbt : ∀ nd, news = some nd →
      ∀ pr ∈ nd.insights.doubtful, pr.2 ≤ 1) :
    0 ≤ calculate_news_score name news := by
  unfold calculate_news_score
  cases hn : news with
  | none => norm_num
  | some nd =>
    dsimp only
    split_ifs with h1 h2 h3
    · norm_num
    · rcases dictGetD_cases nd.insights.likely_starters name (8/10) with h | ⟨v, hv, hev⟩
      · rw [h]; norm_num
      · rw [hev]; exact hlik nd hn (name, v) hv
    · rcases dictGetD_cases nd.insights.doubtful name 0 with h | ⟨v, hv, hev⟩
      · rw [h]; norm_num
      · rw [hev]
        have := hdbt nd hn (name, v) hv
        simp only at this
        nlinarith
    · norm_num

/-- A computed player score is always at least 0.075 = 3/40 (the position
weight times the minimal position importance), provided the externally
supplied form and news confidence values are sane; in particular it is
never 0. -/
lemma playerScoreOf_ge (player : Player) (lineups : List Lineup)
    (injuries : List Injury) (news : Option NewsData)
    (form : List (String × ℚ))
    (hform : ∀ pr ∈ form, 0 ≤ pr.2)
    (hlik : ∀ nd, news = some nd →
      ∀ pr ∈ nd.insights.likely_starters, 0 ≤ pr.2)
    (hdbt : ∀ nd, news = some nd →
      ∀ pr ∈ nd.insights.doubtful, pr.2 ≤ 1) :
    3/40 ≤ playerScoreOf player lineups injuries news form := by
  unfold playerScoreOf
  have hbase := position_importance_ge player.position
  have happ := calculate_appearance_rate_nonneg player.name lineups
  have hinj := calculate_injury_impact_nonneg player.name injuries
  have hnews := calculate_news_score_nonneg player.name news hlik hdbt
  have hform2 : 0 ≤ dictGetD form player.name (1/2) := by
    rcases dictGetD_cases form player.name (1/2) with h | ⟨v, hv, hev⟩
    · rw [h]; norm_num
    · rw [hev]; exact hform (player.name, v) hv
  have hage : (9/10 : ℚ) ≤
      (if 23 ≤ player.age.getD 25 ∧ player.age.getD 25 ≤ 32 then 1
        else 9/10) := by
    split_ifs <;> norm_num
  set fs := (15/100 : ℚ) * position_importance player.position
    + (25/100) * calculate_appearance_rate player.name lineups
    + (20/100) * dictGetD form player.name (1/2)
    + (20/100) * calculate_injury_impact player.name injuries
    + (15/100) * calculate_news_score player.name news
    + (5/100) * (if 23 ≤ player.age.getD 25 ∧ player.age.getD 25 ≤ 32
        then 1 else 9/10) with hfs
  have hge : 3/40 ≤ fs := by
    rw [hfs]
    nlinarith
  refine le_min ?_ (by norm_num)
  exact le_trans hge (le_max_left fs 0)

lemma confidence_breakdown_overall_bounds (squad : List Player)
    (injuries : List Injury) (news : Option NewsData)
    (recent : List Lineup) (form : List (String × ℚ))
    (hc : ∀ nd, news = some nd → 0 ≤ nd.confidence ∧ nd.confidence ≤ 1)
    (hh : ∀ nd h, news = some nd → nd.last_update = some h → 0 ≤ h) :
    0 ≤ (calculate_confidence_breakdown squad injuries news recent
        form).overall
    ∧ (calculate_confidence_breakdown squad injuries news recent
        form).overall ≤ 95/100 := by
  unfold calculate_confidence_breakdown
  dsimp only
  have hf1 : 0 ≤ (if 20 ≤ squad.length then (1:ℚ) else (squad.length : ℚ) / 20)
      ∧ (if 20 ≤ squad.length then (1:ℚ) else (squad.length : ℚ) / 20) ≤ 1 := by
    split_ifs with h
    · norm_num
    · have h20 : squad.length < 20 := lt_of_not_le h
      constructor
      · positivity
      · rw [div_le_one (by norm_num)]
        exact_mod_cast le_of_lt h20
  have hf2 : 0 ≤ (if 3 ≤ recent.length then (1:ℚ) else (recent.length : ℚ) / 3)
      ∧ (if 3 ≤ recent.length then (1:ℚ) else (recent.length : ℚ) / 3) ≤ 1 := by
    split_ifs with h
    · norm_num
    · have h3 : recent.length < 3 := lt_of_not_le h
      constructor
      · positivity
      · rw [div_le_one (by norm_num)]
        exact_mod_cast le_of_lt h3
  have hf3 : 0 ≤ (if injuries = [] then (1:ℚ)/2 else 1)
      ∧ (if injuries = [] then (1:ℚ)/2 else 1) ≤ 1 := by
    split_ifs <;> norm_num
  have hf4 : 0 ≤ (if news = none then (1:ℚ)/2 else 1)
      ∧ (if news = none then (1:ℚ)/2 else 1) ≤ 1 := by
    split_ifs <;> norm_num
  have hf5 : 0 ≤ (if form = [] then (1:ℚ)/2 else 1)
      ∧ (if form = [] then (1:ℚ)/2 else 1) ≤ 1 := by
    split_ifs <;> norm_num
  have hrec : 0 ≤ (match news with
      | some nd =>
        match nd.last_update with
        | some hours_old => max 0 (1 - hours_old / 24)
        | none => (3:ℚ)/10
      | none => (3:ℚ)/10)
      ∧ (match news with
      | some nd =>
        match nd.last_update with
        | some hours_old => max 0 (1 - hours_old / 24)
        | none => (3:ℚ)/10
      | none => (3:ℚ)/10) ≤ 1 := by
    cases hn : news with
    | none => norm_num
    | some nd =>
      dsimp only
      cases hu : nd.last_update with
      | none => norm_num
      | some hours_old =>
        dsimp only
        have h0 : 0 ≤ hours_old := hh nd hours_old hn hu
        constructor
        · exact le_max_left (0:ℚ) _
        · refine max_le (by norm_num) ?_
          have : 0 ≤ hours_old / 24 := by positivity
          linarith
  have hrel : 0 ≤ (match news with
      | some nd => nd.confidence
      | none => (1:ℚ)/2)
      ∧ (match news with
      | some nd => nd.confidence
      | none => (1:ℚ)/2) ≤ 1 := by
    cases hn : news with
    | none => norm_num
    | some nd =>
      dsimp only
      exact hc nd hn
  simp only [List.sum_cons, List.sum_nil, List.length_cons, List.length_nil]
  push_cast
  constructor
  · nlinarith [hf1.1, hf1.2, hf2.1, hf2.2, hf3.1, hf3.2, hf4.1, hf4.2,
      hf5.1, hf5.2, hrec.1, hrec.2, hrel.1, hrel.2]
  · nlinarith [hf1.1, hf1.2, hf2.1, hf2.2, hf3.1, hf3.2, hf4.1, hf4.2,
      hf5.1, hf5.2, hrec.1, hrec.2, hrel.1, hrel.2]

/-! ### Claim theorems -/

/-- C2: for every input to the prediction pipeline, the returned overall
confidence lies in [0, 0.95]: the simple predictor caps
`_calculate_confidence` at 0.95 and its terms are nonnegative for any news
confidence in [0, 1] (which the analyzers guarantee), and the optimized
predictor's weighted `confidence_breakdown["overall"]` is bounded by
0.3 + 0.25 + 0.25 + 0.2 * 0.7 = 0.94 < 0.95 whenever the news confidence
is in [0, 1] and the news age is nonnegative. -/
theorem claim_C2_confidence_bounds :
    (∀ (squad_size injuries_count recent_count : Nat) (nc : ℚ),
      0 ≤ nc → nc ≤ 1 →
      0 ≤ calculate_confidence squad_size injuries_count nc recent_count
        ∧ calculate_confidence squad_size injuries_count nc recent_count
          ≤ 95/100)
    ∧ (∀ (squad : List Player) (injuries : List Injury)
        (news : Option NewsData) (recent : List Lineup)
        (form : List (String × ℚ)),
      (∀ nd, news = some nd → 0 ≤ nd.confidence ∧ nd.confidence ≤ 1) →
      (∀ nd h, news = some nd → nd.last_update = some h → 0 ≤ h) →
      0 ≤ (calculate_confidence_breakdown squad injuries news recent
          form).overall
        ∧ (calculate_confidence_breakdown squad injuries news recent
          form).overall ≤ 95/100) := by
  constructor
  · intro squad_size injuries_count recent_count nc h0 _
    unfold calculate_confidence
    split_ifs <;>
      exact ⟨le_min (by linarith) (by norm_num), min_le_right _ _⟩
  · intro squad injuries news recent form hc hh
    exact confidence_breakdown_overall_bounds squad injuries news recent
      form hc hh

theorem claim_C2_confidence_bounds_witness :
    ((0:ℚ) ≤ 1/2 ∧ (1/2:ℚ) ≤ 1)
    ∧ (0 ≤ calculate_confidence 25 2 (1/2) 5
        ∧ calculate_confidence 25 2 (1/2) 5 ≤ 95/100)
    ∧ (0 ≤ (calculate_confidence_breakdown [] []
          (some { confidence := 1/2, last_update := some 3 }) [] []).overall
        ∧ (calculate_confidence_breakdown [] []
          (some { confidence := 1/2, last_update := some 3 }) [] []).overall
          ≤ 95/100) :=
  ⟨⟨by norm_num, by norm_num⟩,
   claim_C2_confidence_bounds.1 25 2 5 (1/2) (by norm_num) (by norm_num),
   claim_C2_confidence_bounds.2 [] []
     (some { confidence := 1/2, last_update := some 3 }) [] []
     (fun nd hnd => by cases hnd; exact ⟨by norm_num, by norm_num⟩)
     (fun nd h hnd hu => by cases hnd; cases hu; norm_num)⟩

/-- C10: the simple predictor's `_calculate_confidence` never returns less
than its hard-coded base 0.5, for any squad size, injury count, recent
lineup count and any nonnegative news confidence (in particular any news
confidence in [0, 1]). -/
theorem claim_C10_confidence_floor :
    ∀ (squad_size injuries_count recent_count : Nat) (nc : ℚ),
      0 ≤ nc →
      1/2 ≤ calculate_confidence squad_size injuries_count nc
        recent_count := by
  intro squad_size injuries_count recent_count nc h0
  unfold calculate_confidence
  split_ifs <;> exact le_min (by linarith) (by norm_num)

theorem claim_C10_confidence_floor_witness :
    ((0:ℚ) ≤ 0) ∧ 1/2 ≤ calculate_confidence 0 0 0 0 :=
  ⟨le_refl 0, claim_C10_confidence_floor 0 0 0 0 (le_refl 0)⟩

/-- C4: for both predictors the starting XI and substitutes are disjoint,
the starting XI has at most 11 entries and the substitutes at most 7: the
optimized `_select_optimal_lineup` skips starters and caps the bench at 7
inside its loop, and the simple `_select_substitutes` filters the starting
XI out of the available players before taking 7. -/
theorem claim_C4_disjoint_lists :
    (∀ (player_scores : String → ℚ) (d m f : Nat) (squad : List Player),
      (∀ p ∈ (select_optimal_lineup player_scores d m f squad).2,
        ¬ p ∈ (select_optimal_lineup player_scores d m f squad).1)
      ∧ (select_optimal_lineup player_scores d m f squad).1.length ≤ 11
      ∧ (select_optimal_lineup player_scores d m f squad).2.length ≤ 7)
    ∧ (∀ (available : List Player) (d m f : Nat),
      (select_starting_xi available d m f).length ≤ 11)
    ∧ (∀ (available starting_xi : List Player),
      (∀ p ∈ select_substitutes available starting_xi, ¬ p ∈ starting_xi)
      ∧ (select_substitutes available starting_xi).length ≤ 7) := by
  refine ⟨?_, ?_, ?_⟩
  · intro player_scores d m f squad
    have hprops := substitutesOfGroups_props
      (positionGroup squad player_scores "Goalkeeper")
      (positionGroup squad player_scores "Defender")
      (positionGroup squad player_scores "Midfielder")
      (positionGroup squad player_scores "Attacker")
      (startingXIofGroups (positionGroup squad player_scores "Goalkeeper")
        (positionGroup squad player_scores "Defender")
        (positionGroup squad player_scores "Midfielder")
        (positionGroup squad player_scores "Attacker") d m f)
    refine ⟨?_, ?_, ?_⟩
    · intro p hp hmem
      exact hprops.1 p hp (List.mem_of_mem_take hmem)
    · exact List.length_take_le _ _
    · exact hprops.2
  · intro available d m f
    rw [select_starting_xi_unfold]
    exact List.length_take_le _ _
  · intro available starting_xi
    constructor
    · intro p hp
      have h1 := List.mem_of_mem_take hp
      have h2 := List.of_mem_filter h1
      simpa using h2
    · exact List.length_take_le _ _

def c4squad : List Player :=
  [{ name := "Gk One", position := "Goalkeeper" },
   { name := "Gk Two", position := "Goalkeeper" }]

def c4sub : ScoredPlayer :=
  { player := { name := "Gk Two", position := "Goalkeeper" },
    selection_score := 1 }

theorem claim_C4_disjoint_lists_witness :
    c4sub ∈ (select_optimal_lineup (fun _ => 1) 4 3 3 c4squad).2
    ∧ ¬ c4sub ∈ (select_optimal_lineup (fun _ => 1) 4 3 3 c4squad).1 :=
  ⟨by decide,
   (claim_C4_disjoint_lists.1 (fun _ => 1) 4 3 3 c4squad).1 c4sub (by decide)⟩

def c5injury : Injury :=
  { player_name := "john doe", severity := some "severe",
    status := "injured", description := "Cruciate ligament injury" }

/-- C5 counterexample: the severity classifier labels a cruciate injury
"severe", but the availability sub-score map of
`_calculate_injury_impact` has no "severe" key (its keys are "out",
"major", "minor"), so a severe record gets the fallback 0.5, not the 0.2
the claim asserts. -/
theorem claim_C5_availability_map_counterexample :
    determine_severity "Cruciate ligament injury" = "severe"
    ∧ calculate_injury_impact "John Doe" [c5injury] = 1/2
    ∧ ¬ calculate_injury_impact "John Doe" [c5injury] = 2/10 := by
  refine ⟨by decide, by with_unfolding_all decide, by with_unfolding_all decide⟩

/-- C5 (amended): the availability sub-score map of the optimized
predictor sends severity "out" to 0.0, "major" to 0.2 and "minor" to 0.7,
and EVERY OTHER severity - including the "severe", "moderate" and
"unknown" values actually produced by the severity classifier - to the
fallback 0.5; an unmatched player scores 1.0, and a record without a
severity key is read as "minor". -/
theorem claim_C5_availability_map :
    (∀ (name : String) (injuries : List Injury),
      (∀ i ∈ injuries, ¬ strToLower i.player_name = strToLower name) →
      calculate_injury_impact name injuries = 1)
    ∧ (∀ (name : String) (i : Injury) (rest : List Injury),
      strToLower i.player_name = strToLower name →
      calculate_injury_impact name (i :: rest) =
        (if i.severity.getD "minor" = "out" then 0
         else if i.severity.getD "minor" = "major" then 2/10
         else if i.severity.getD "minor" = "minor" then 7/10
         else 1/2))
    ∧ (∀ t : String, determine_severity t = "severe"
        ∨ determine_severity t = "moderate"
        ∨ determine_severity t = "minor"
        ∨ determine_severity t = "unknown") := by
  refine ⟨?_, ?_, ?_⟩
  · intro name injuries hnone
    unfold calculate_injury_impact
    rw [List.find?_eq_none.mpr]
    intro i hi
    simpa using hnone i hi
  · intro name i rest hmatch
    unfold calculate_injury_impact
    rw [List.find?_cons_of_pos _ (by simpa using hmatch)]
  · intro t
    unfold determine_severity
    dsimp only
    split_ifs <;> simp

theorem claim_C5_availability_map_witness :
    (strToLower c5injury.player_name = strToLower "John Doe")
    ∧ calculate_injury_impact "John Doe" [c5injury] =
        (if c5injury.severity.getD "minor" = "out" then 0
         else if c5injury.severity.getD "minor" = "major" then 2/10
         else if c5injury.severity.getD "minor" = "minor" then 7/10
         else 1/2) :=
  ⟨by decide,
   claim_C5_availability_map.2.1 "John Doe" c5injury [] (by decide)⟩

def c9env : ProviderEnv := { searchHTTP := .error (), injuriesHTTP := .error () }

/-- C9: `get_team_injuries` never propagates a provider failure: an
unresolvable team (lookup miss plus failed or empty search) yields `[]`, a
raised or non-200 injuries request yields `[]`, and a successful request
yields the transformed record list (with the demo substitution for the
hard-coded top teams); the function is total, so injury fetching can never
fail the enclosing prediction. -/
theorem claim_C9_injury_error_policy :
    (∀ (env : ProviderEnv) (team_name : String),
      TEAM_IDS.lookup (strToLower team_name) = none →
      find_team_id env = none →
      get_team_injuries env team_name = [])
    ∧ (∀ env : ProviderEnv, env.searchHTTP = .error () →
      find_team_id env = none)
    ∧ (∀ (env : ProviderEnv) (team_id : Nat),
      env.injuriesHTTP = .error () →
      fetch_api_football_injuries env team_id = [])
    ∧ (∀ (env : ProviderEnv) (team_id status : Nat) (records : List Injury),
      env.injuriesHTTP = .ok (status, records) → ¬ status = 200 →
      fetch_api_football_injuries env team_id = [])
    ∧ (∀ (env : ProviderEnv) (team_id : Nat) (records : List Injury),
      env.injuriesHTTP = .ok (200, records) →
      fetch_api_football_injuries env team_id =
        (if records = [] ∧ team_id ∈ [49, 42, 40, 33, 50] then demo_injuries
         else records))
    ∧ (∀ (env : ProviderEnv) (team_name : String) (id : Nat),
      TEAM_IDS.lookup (strToLower team_name) = some id → ¬ id = 0 →
      get_team_injuries env team_name
        = fetch_api_football_injuries env id) := by
  refine ⟨?_, ?_, ?_, ?_, ?_, ?_⟩
  · intro env team_name h1 h2
    unfold get_team_injuries
    rw [h1, h2]
  · intro env h
    unfold find_team_id
    rw [h]
  · intro env team_id h
    unfold fetch_api_football_injuries
    rw [h]
  · intro env team_id status records h hstatus
    unfold fetch_api_football_injuries
    rw [h]
    dsimp only
    rw [if_neg hstatus]
  · intro env team_id records h
    unfold fetch_api_football_injuries
    rw [h]
    dsimp only
    rw [if_pos rfl]
  · intro env team_name id hlookup hid
    unfold get_team_injuries
    rw [hlookup]
    dsimp only
    rw [if_neg hid]
    dsimp only
    rw [if_neg hid]

theorem claim_C9_injury_error_policy_witness :
    (TEAM_IDS.lookup (strToLower "Unknown FC") = none
      ∧ find_team_id c9env = none)
    ∧ get_team_injuries c9env "Unknown FC" = [] :=
  ⟨⟨by decide, rfl⟩,
   claim_C9_injury_error_policy.1 c9env "Unknown FC" (by decide) rfl⟩

def c1avail : List Player :=
  [{ name := "Gk One", position := "Goalkeeper" },
   { name := "Gk Two", position := "Goalkeeper" },
   { name := "Def One", position := "Defender" },
   { name := "Def Two", position := "Defender" },
   { name := "Def Three", position := "Defender" },
   { name := "Def Four", position := "Defender" },
   { name := "Def Five", position := "Defender" },
   { name := "Def Six", position := "Defender" },
   { name := "Def Seven", position := "Defender" },
   { name := "Def Eight", position := "Defender" },
   { name := "Def Nine", position := "Defender" }]

/-- C1 counterexample: an 11-player list with two goalkeepers (and no
degraded-mode trigger - a goalkeeper is available) on which the simple
selector returns 11 starters containing TWO goalkeepers: the backfill of
`_select_starting_xi` draws from all remaining players, including the
second goalkeeper, so "exactly one goalkeeper" is false as claimed. -/
theorem claim_C1_xi_size_counterexample :
    c1avail.Nodup ∧ 11 ≤ c1avail.length
    ∧ (∃ p ∈ c1avail, p.position = "Goalkeeper")
    ∧ (select_starting_xi c1avail 4 3 3).length = 11
    ∧ ¬ (select_starting_xi c1avail 4 3 3).countP
        (fun p => p.position = "Goalkeeper") = 1 := by
  refine ⟨by decide, by decide, by decide, by decide, by decide⟩

/-- C1 (amended): for the simple selector, any duplicate-free available
list with at least 11 players and at least one goalkeeper yields exactly
11 starters containing AT LEAST one goalkeeper (the backfill fills to 11
from remaining players of any position, which is also why a second
goalkeeper can slip in).  For the optimized selector the starting XI never
holds more than one goalkeeper, and it reaches exactly 11 players with
exactly one goalkeeper provided some goalkeeper has a positive score and
at least ten OUTFIELD players have positive scores - its backfill draws
only from the defender/midfielder/attacker buckets of positive-score
players, so mere squad size does not suffice. -/
theorem claim_C1_xi_size :
    (∀ (available : List Player) (d m f : Nat),
      available.Nodup → 11 ≤ available.length →
      (∃ p ∈ available, p.position = "Goalkeeper") →
      (select_starting_xi available d m f).length = 11
        ∧ ∃ p ∈ select_starting_xi available d m f,
            p.position = "Goalkeeper")
    ∧ (∀ (player_scores : String → ℚ) (d m f : Nat) (squad : List Player),
      ((select_optimal_lineup player_scores d m f squad).1).countP
        (fun sp => sp.player.position = "Goalkeeper") ≤ 1)
    ∧ (∀ (player_scores : String → ℚ) (d m f : Nat) (squad : List Player),
      squad.Nodup →
      positionGroup squad player_scores "Goalkeeper" ≠ [] →
      10 ≤ (positionGroup squad player_scores "Defender").length
        + (positionGroup squad player_scores "Midfielder").length
        + (positionGroup squad player_scores "Attacker").length →
      ((select_optimal_lineup player_scores d m f squad).1).length = 11
        ∧ ((select_optimal_lineup player_scores d m f squad).1).countP
          (fun sp => sp.player.position = "Goalkeeper") = 1) := by
  refine ⟨?_, ?_, ?_⟩
  · intro available d m f hnd h11 hgk
    exact ⟨select_starting_xi_length hnd h11, select_starting_xi_gk hgk⟩
  · intro player_scores d m f squad
    exact (countP_GK_select_optimal player_scores d m f squad).1
  · intro player_scores d m f squad hnd hgk hK
    exact ⟨length_select_optimal_xi hnd hgk hK,
      (countP_GK_select_optimal player_scores d m f squad).2 hgk⟩

def c1squad : List Player :=
  [{ name := "Keeper A", position := "Goalkeeper" },
   { name := "Back One", position := "Defender" },
   { name := "Back Two", position := "Defender" },
   { name := "Back Three", position := "Defender" },
   { name := "Back Four", position := "Defender" },
   { name := "Mid One", position := "Midfielder" },
   { name := "Mid Two", position := "Midfielder" },
   { name := "Mid Three", position := "Midfielder" },
   { name := "Wing One", position := "Attacker" },
   { name := "Wing Two", position := "Attacker" },
   { name := "Wing Three", position := "Attacker" },
   { name := "Wing Four", position := "Attacker" }]

theorem claim_C1_xi_size_witness :
    (c1avail.Nodup ∧ 11 ≤ c1avail.length
      ∧ (∃ p ∈ c1avail, p.position = "Goalkeeper")
      ∧ (select_starting_xi c1avail 4 3 3).length = 11
      ∧ ∃ p ∈ select_starting_xi c1avail 4 3 3, p.position = "Goalkeeper")
    ∧ (c1squad.Nodup
      ∧ positionGroup c1squad (fun _ => 1) "Goalkeeper" ≠ []
      ∧ 10 ≤ (positionGroup c1squad (fun _ => 1) "Defender").length
        + (positionGroup c1squad (fun _ => 1) "Midfielder").length
        + (positionGroup c1squad (fun _ => 1) "Attacker").length
      ∧ ((select_optimal_lineup (fun _ => 1) 4 3 3 c1squad).1).length = 11
      ∧ ((select_optimal_lineup (fun _ => 1) 4 3 3 c1squad).1).countP
          (fun sp => sp.player.position = "Goalkeeper") = 1) :=
  ⟨⟨by decide, by decide, by decide,
    (claim_C1_xi_size.1 c1avail 4 3 3 (by decide) (by decide) (by decide)).1,
    (claim_C1_xi_size.1 c1avail 4 3 3 (by decide) (by decide) (by decide)).2⟩,
   ⟨by decide, by with_unfolding_all decide, by with_unfolding_all decide,
    (claim_C1_xi_size.2.2 (fun _ => 1) 4 3 3 c1squad (by decide)
      (by with_unfolding_all decide) (by with_unfolding_all decide)).1,
    (claim_C1_xi_size.2.2 (fun _ => 1) 4 3 3 c1squad (by decide)
      (by with_unfolding_all decide) (by with_unfolding_all decide)).2⟩⟩

def c3squad : List Player :=
  [{ name := "Alice Keeper", position := "Goalkeeper", age := some 25 },
   { name := "Betty Glove", position := "Goalkeeper", age := some 25 }]

def c3lineups : List Lineup :=
  [{ players := ["Alice Keeper"] }]

def c3news : NewsData :=
  { insights := { ruled_out := [("Alice Keeper", 9/10)] },
    confidence := 8/10 }

/-- The score map the optimized pipeline feeds the selector on the C3
counterexample input (`player_scores.get(name, 0)`). -/
def c3scores : String → ℚ := fun n =>
  dictGetD (calculate_player_scores c3squad c3lineups [] (some c3news) []) n 0

/-- C3 counterexample: "Alice Keeper" is ruled out by news (news sub-score
0.0), yet her composite score is 0.75 (high appearance rate), so the
selector starts her even though the same-position alternative
"Betty Glove" has score 0.575 > 0: a news-derived score of 0 does not
exclude a player, because the weighted sum keeps every scored player
strictly positive. -/
theorem claim_C3_ruled_out_counterexample :
    dictHasKey c3news.insights.ruled_out "Alice Keeper" = true
    ∧ calculate_news_score "Alice Keeper" (some c3news) = 0
    ∧ (∃ sp ∈ (select_optimal_lineup c3scores 4 3 3 c3squad).1,
        sp.player.name = "Alice Keeper")
    ∧ (∃ q ∈ c3squad, q.position = "Goalkeeper" ∧ q.name = "Betty Glove"
        ∧ 0 < c3scores q.name) := by
  with_unfolding_all decide

/-- C3 (amended): in the optimized selector a player whose COMPOSITE score
is 0 (or missing from the score dict) never appears in the starting XI;
but a news-derived ruled-out status alone cannot produce a composite
score of 0 - with nonnegative form values and news confidences in [0, 1]
every computed score is at least 0.075 - so a ruled-out player can still
be selected even when a same-position alternative with positive score
exists. -/
theorem claim_C3_ruled_out :
    (∀ (player_scores : String → ℚ) (d m f : Nat) (squad : List Player)
        (p : Player),
      p ∈ squad → player_scores p.name = 0 →
      ∀ sp ∈ (select_optimal_lineup player_scores d m f squad).1,
        ¬ sp.player = p)
    ∧ (∀ (player : Player) (lineups : List Lineup) (injuries : List Injury)
        (news : Option NewsData) (form : List (String × ℚ)),
      (∀ pr ∈ form, 0 ≤ pr.2) →
      (∀ nd, news = some nd →
        ∀ pr ∈ nd.insights.likely_starters, 0 ≤ pr.2) →
      (∀ nd, news = some nd → ∀ pr ∈ nd.insights.doubtful, pr.2 ≤ 1) →
      3/40 ≤ playerScoreOf player lineups injuries news form) := by
  constructor
  · intro player_scores d m f squad p _ hzero sp hsp heq
    have hm := mem_select_optimal_xi hsp
    rw [heq, hzero] at hm
    exact absurd hm.2.1 (by norm_num)
  · intro player lineups injuries news form hform hlik hdbt
    exact playerScoreOf_ge player lineups injuries news form hform hlik hdbt

def c3out : Player := { name := "Gone Keeper", position := "Goalkeeper" }

def c3wsquad : List Player :=
  [c3out, { name := "Backup Keeper", position := "Goalkeeper" }]

def c3wscores : String → ℚ := fun n => if n = "Gone Keeper" then 0 else 1

theorem claim_C3_ruled_out_witness :
    (c3out ∈ c3wsquad ∧ c3wscores c3out.name = 0
      ∧ (∀ sp ∈ (select_optimal_lineup c3wscores 4 3 3 c3wsquad).1,
          ¬ sp.player = c3out))
    ∧ 3/40 ≤ playerScoreOf c3out [] [] none [] :=
  ⟨⟨by decide, by decide,
    claim_C3_ruled_out.1 c3wscores 4 3 3 c3wsquad c3out (by decide)
      (by decide)⟩,
   claim_C3_ruled_out.2 c3out [] [] none [] (by simp)
     (fun nd h => by cases h) (fun nd h => by cases h)⟩

def c6lineups : List Lineup :=
  [{ formation := some "4-4-2" }, { formation := some "4-4-2" },
   { formation := some "4-3-3" }]

/-- C6 counterexample: with no news hint and recent formations
["4-4-2", "4-4-2", "4-3-3"], the optimized `_predict_formation_advanced`
returns "4-3-3" even though the strictly most frequent formation is
"4-4-2" (2 occurrences against 1): the recency weighting ties the counts
at 3 and the weighted counter sees the newest formation first, so "the
most frequent one is returned" is false for the optimized predictor. -/
theorem claim_C6_formation_priority_counterexample :
    predict_formation_advanced c6lineups none = "4-3-3"
    ∧ (lineupFormations c6lineups).count "4-4-2" = 2
    ∧ (lineupFormations c6lineups).count "4-3-3" = 1
    ∧ ¬ predict_formation_advanced c6lineups none = "4-4-2" := by
  refine ⟨by decide, by decide, by decide, by decide⟩

def c6hint : NewsData := { insights := { formation_hints := some "3-4-3" } }

def c6all433 : List Lineup :=
  [{ formation := some "4-3-3" }, { formation := some "4-3-3" },
   { formation := some "4-3-3" }]

/-- C6 (amended): both predictors return a truthy news formation hint
verbatim, regardless of the recent lineups (concretely, hint "3-4-3"
beats all-"4-3-3" history); with no hint and no recent formations both
return the fixed default "4-3-3"; with no hint and a non-empty formation
history the SIMPLE predictor returns a most frequent formation (plain
counting), while the optimized predictor uses recency-weighted counts,
which can differ from the plain mode. -/
theorem claim_C6_formation_priority :
    (∀ (lineups : List Lineup) (nd : NewsData) (s : String),
      nd.insights.formation_hints = some s → ¬ s = "" →
      predict_formation lineups (some nd) = s
        ∧ predict_formation_advanced lineups (some nd) = s)
    ∧ (∀ (lineups : List Lineup) (news : Option NewsData),
      newsFormationHint news = none → lineupFormations lineups = [] →
      predict_formation lineups news = "4-3-3"
        ∧ predict_formation_advanced lineups news = "4-3-3")
    ∧ (∀ (lineups : List Lineup) (news : Option NewsData),
      newsFormationHint news = none → ¬ lineupFormations lineups = [] →
      ∃ c, predict_formation lineups news = c
        ∧ c ∈ lineupFormations lineups
        ∧ ∀ x ∈ lineupFormations lineups,
            (lineupFormations lineups).count x
              ≤ (lineupFormations lineups).count c)
    ∧ (predict_formation c6all433 (some c6hint) = "3-4-3"
      ∧ predict_formation_advanced c6all433 (some c6hint) = "3-4-3") := by
  refine ⟨?_, ?_, ?_, by decide, by decide⟩
  · intro lineups nd s hhint hs
    have hh : newsFormationHint (some nd) = some s := by
      unfold newsFormationHint
      dsimp only
      rw [hhint]
      unfold truthyStr
      dsimp only
      rw [if_neg hs]
    constructor
    · unfold predict_formation
      rw [hh]
    · unfold predict_formation_advanced
      rw [hh]
  · intro lineups news h1 h2
    constructor
    · unfold predict_formation
      rw [h1, h2]
      rfl
    · unfold predict_formation_advanced
      rw [h1, h2]
      rfl
  · intro lineups news h1 h2
    obtain ⟨c, hc, hmem, hmax⟩ := mostCommon_spec h2
    refine ⟨c, ?_, hmem, hmax⟩
    unfold predict_formation
    rw [h1, hc]

def c6wlineups : List Lineup :=
  [{ formation := some "4-4-2" }, { formation := some "4-3-3" },
   { formation := some "4-4-2" }]

theorem claim_C6_formation_priority_witness :
    (c6hint.insights.formation_hints = some "3-4-3" ∧ ¬ "3-4-3" = ""
      ∧ predict_formation c6wlineups (some c6hint) = "3-4-3"
      ∧ predict_formation_advanced c6wlineups (some c6hint) = "3-4-3")
    ∧ (newsFormationHint none = none
      ∧ ¬ lineupFormations c6wlineups = []
      ∧ ∃ c, predict_formation c6wlineups none = c
        ∧ c ∈ lineupFormations c6wlineups
        ∧ ∀ x ∈ lineupFormations c6wlineups,
            (lineupFormations c6wlineups).count x
              ≤ (lineupFormations c6wlineups).count c) :=
  ⟨⟨rfl, by decide,
    (claim_C6_formation_priority.1 c6wlineups c6hint "3-4-3" rfl
      (by decide)).1,
    (claim_C6_formation_priority.1 c6wlineups c6hint "3-4-3" rfl
      (by decide)).2⟩,
   ⟨rfl, by decide,
    claim_C6_formation_priority.2.2.1 c6wlineups none rfl (by decide)⟩⟩

def c7lineups : List Lineup :=
  [{ formation := some "4-4-2" }, { formation := some "4-4-2" },
   { formation := some "4-3-3" }]

/-- C7 counterexample: the claim covers both cited implementations, but
the simple `_predict_formation` does no recency weighting at all: on
["4-4-2", "4-4-2", "4-3-3"] (oldest to newest, weighted counts 3 and 3)
it prefers "4-4-2" although its weighted count does NOT strictly exceed
"4-3-3"'s, so the weighted-mode description is false for the simple
predictor. -/
theorem claim_C7_weighted_recency_counterexample :
    predict_formation c7lineups none = "4-4-2"
    ∧ weightedCount "4-4-2" (lineupFormations c7lineups) = 3
    ∧ weightedCount "4-3-3" (lineupFormations c7lineups) = 3 := by
  refine ⟨by decide, by decide, by decide⟩

def c7newer : List Lineup :=
  [{ formation := some "4-3-3" }, { formation := some "4-4-2" },
   { formation := some "4-4-2" }]

/-- C7 (amended): the weighted-mode description holds for the OPTIMIZED
predictor `_predict_formation_advanced`: with no news hint and a
non-empty formation history it returns a formation of maximal linear
recency-weighted count (oldest occurrence weight 1, each newer occurrence
one more), ties resolved by the weighted iteration order - concretely, on
["4-4-2", "4-4-2", "4-3-3"] the weighted counts tie at 3 and "4-3-3" is
returned, so "4-4-2" is preferred only when its weighted count strictly
exceeds (as on ["4-3-3", "4-4-2", "4-4-2"], weights 5 against 1); the
simple `_predict_formation` instead uses unweighted frequency. -/
theorem claim_C7_weighted_recency :
    (∀ (lineups : List Lineup) (news : Option NewsData),
      newsFormationHint news = none → ¬ lineupFormations lineups = [] →
      ∃ c, predict_formation_advanced lineups news = c
        ∧ c ∈ lineupFormations lineups
        ∧ ∀ x ∈ lineupFormations lineups,
            weightedCount x (lineupFormations lineups)
              ≤ weightedCount c (lineupFormations lineups))
    ∧ (predict_formation_advanced c7lineups none = "4-3-3"
      ∧ weightedCount "4-4-2" (lineupFormations c7lineups) = 3
      ∧ weightedCount "4-3-3" (lineupFormations c7lineups) = 3)
    ∧ (predict_formation_advanced c7newer none = "4-4-2"
      ∧ weightedCount "4-4-2" (lineupFormations c7newer) = 5
      ∧ weightedCount "4-3-3" (lineupFormations c7newer) = 1) := by
  refine ⟨?_, ⟨by decide, by decide, by decide⟩,
    ⟨by decide, by decide, by decide⟩⟩
  intro lineups news h1 h2
  have hwne : weightedFormations (lineupFormations lineups) ≠ [] := by
    obtain ⟨y, ys, hys⟩ : ∃ y ys, lineupFormations lineups = y :: ys := by
      cases hh : lineupFormations lineups with
      | nil => exact absurd hh h2
      | cons a as => exact ⟨a, as, rfl⟩
    have : y ∈ weightedFormations (lineupFormations lineups) := by
      rw [mem_weightedFormations, hys]
      exact List.mem_cons_self _ _
    exact List.ne_nil_of_mem this
  obtain ⟨c, hc, hmem, hmax⟩ := mostCommon_spec hwne
  refine ⟨c, ?_, mem_weightedFormations.mp hmem, ?_⟩
  · unfold predict_formation_advanced
    rw [h1, hc]
  · intro x hx
    exact hmax x (mem_weightedFormations.mpr hx)

theorem claim_C7_weighted_recency_witness :
    (newsFormationHint none = none ∧ ¬ lineupFormations c7lineups = [])
    ∧ ∃ c, predict_formation_advanced c7lineups none = c
        ∧ c ∈ lineupFormations c7lineups
        ∧ ∀ x ∈ lineupFormations c7lineups,
            weightedCount x (lineupFormations c7lineups)
              ≤ weightedCount c (lineupFormations c7lineups) :=
  ⟨⟨rfl, by decide⟩,
   claim_C7_weighted_recency.1 c7lineups none rfl (by decide)⟩

def c8itemA : NewsItem :=
  { content := "The team will play 4-3-3 today", source := "press" }

def c8itemB : NewsItem :=
  { content := "Sources now expect a 3-5-2 shape", source := "bbc" }

/-- C8 counterexample: scanning two items whose contents match the
formation pattern, both analyzers return the match of the LAST item, not
the first: each matching item overwrites `formation_hints`. -/
theorem claim_C8_formation_hint_counterexample :
    findFormationOptimized c8itemA.content = some "4-3-3"
    ∧ findFormationOptimized c8itemB.content = some "3-5-2"
    ∧ extract_formation_hints_optimized [c8itemA, c8itemB] = some "3-5-2"
    ∧ ¬ extract_formation_hints_optimized [c8itemA, c8itemB] = some "4-3-3"
    ∧ extract_formation_hints_simple [c8itemA, c8itemB] = some "3-5-2" := by
  refine ⟨by decide, by decide, by decide, by decide, by decide⟩

/-- C8 (amended): over the item sequence, the returned `formation_hints`
is the LAST per-item match (each matching item overwrites the field; the
first-match-wins rule holds only among the patterns and positions WITHIN
one item), for both the optimized and the simple news analyzer. -/
theorem claim_C8_formation_hint_last_wins :
    (∀ items : List NewsItem,
      extract_formation_hints_optimized items
        = (items.filterMap
            (fun it => findFormationOptimized it.content)).getLast?)
    ∧ (∀ items : List NewsItem,
      extract_formation_hints_simple items
        = (items.filterMap
            (fun it => findFormationSimple it.content)).getLast?) := by
  constructor
  · intro items
    unfold extract_formation_hints_optimized
    rw [overwriteFold_eq]
    cases (items.filterMap
      (fun it => findFormationOptimized it.content)).getLast? <;> rfl
  · intro items
    unfold extract_formation_hints_simple
    rw [overwriteFold_eq]
    cases (items.filterMap
      (fun it => findFormationSimple it.content)).getLast? <;> rfl

end FootballLineup
